import Mathlib

set_option autoImplicit false

/-!
# ImageUtil: the image transformation pipeline of `src/ImageUtil/src/data.c`

A shallow embedding of the three callbacks of `data.c`:

* `_image_util_start_cb` (the click handler that walks the resource directory),
* `_image_util_completed_cb` (the completion callback of one transform),
* `_btn_enable` (the idle callback that cleans up and re-enables the buttons).

The file-scope variables of `data.c` are the fields of `State`.  Every call that
leaves the translation unit (SDK, libc, logging macros) is appended to
`State.trace`, in program order.  What the SDK answers is not decided by the
program: the answers for one directory entry are the fields of `dirent_env`, the
answers inside one completion callback are the fields of `completed_env`, and
the theorems quantify over them.

`image_util_transform_run` is asynchronous: the handler only records the call,
and the completion is a later, separate run of `_image_util_completed_cb` on
the state the handler left behind.  An SDK call that fails leaves the variable
behind its output parameter unchanged, and a call that succeeds in creating an
object hands out the next unused object number `State.next_id`.
-/

namespace ImageUtil

/-! ## Constants and enumerations -/

/-- The `#define BUFLEN 256` of `data.c`. -/
def BUFLEN : Nat := 256

/-- The enumerator `BUTTON_COUNT` of `app_button` in `view.h`: four buttons come before it. -/
def BUTTON_COUNT : Nat := 4

/-- Success code of the image-util API (`TIZEN_ERROR_NONE`), from the SDK header. -/
abbrev IMAGE_UTIL_ERROR_NONE : Int := 0

/-- Success code of the media-format API (`TIZEN_ERROR_NONE`), from the SDK header. -/
abbrev MEDIA_FORMAT_ERROR_NONE : Int := 0

/-- Success code of the media-packet API (`TIZEN_ERROR_NONE`), from the SDK header. -/
abbrev MEDIA_PACKET_ERROR_NONE : Int := 0

/-- The colour spaces that `_map_colorspace` switches over. -/
inductive image_util_colorspace_e where
  | IMAGE_UTIL_COLORSPACE_YV12
  | IMAGE_UTIL_COLORSPACE_YUV422
  | IMAGE_UTIL_COLORSPACE_I420
  | IMAGE_UTIL_COLORSPACE_NV12
  | IMAGE_UTIL_COLORSPACE_UYVY
  | IMAGE_UTIL_COLORSPACE_YUYV
  | IMAGE_UTIL_COLORSPACE_RGB565
  | IMAGE_UTIL_COLORSPACE_RGB888
  | IMAGE_UTIL_COLORSPACE_ARGB8888
  | IMAGE_UTIL_COLORSPACE_BGRA8888
  | IMAGE_UTIL_COLORSPACE_RGBA8888
  | IMAGE_UTIL_COLORSPACE_BGRX8888
  | IMAGE_UTIL_COLORSPACE_NV21
  | IMAGE_UTIL_COLORSPACE_NV16
  | IMAGE_UTIL_COLORSPACE_NV61
  deriving DecidableEq, Repr

open image_util_colorspace_e

/-- The MIME types of `media_format_mimetype_e` that `data.c` names, and the rest by code. -/
inductive media_format_mimetype_e where
  | MEDIA_FORMAT_NV12
  | MEDIA_FORMAT_RGB888
  | other (code : Nat)
  deriving DecidableEq, Repr

open media_format_mimetype_e

/-- The only completion callback that `data.c` registers. -/
inductive transform_completed_cb where
  | _image_util_completed_cb
  deriving DecidableEq, Repr

/-- One argument of a printf-style logging call. -/
inductive LogArg where
  | str (s : String)
  | int (i : Int)
  deriving DecidableEq, Repr

/-- The string that `_map_colorspace` returns for each colour space. -/
def _map_colorspace : image_util_colorspace_e → String
  | IMAGE_UTIL_COLORSPACE_YV12 => "IMAGE_UTIL_COLORSPACE_YV12"
  | IMAGE_UTIL_COLORSPACE_YUV422 => "IMAGE_UTIL_COLORSPACE_YUV422"
  | IMAGE_UTIL_COLORSPACE_I420 => "IMAGE_UTIL_COLORSPACE_I420"
  | IMAGE_UTIL_COLORSPACE_NV12 => "IMAGE_UTIL_COLORSPACE_NV12"
  | IMAGE_UTIL_COLORSPACE_UYVY => "IMAGE_UTIL_COLORSPACE_UYVY"
  | IMAGE_UTIL_COLORSPACE_YUYV => "IMAGE_UTIL_COLORSPACE_YUYV"
  | IMAGE_UTIL_COLORSPACE_RGB565 => "IMAGE_UTIL_COLORSPACE_RGB565"
  | IMAGE_UTIL_COLORSPACE_RGB888 => "IMAGE_UTIL_COLORSPACE_RGB888"
  | IMAGE_UTIL_COLORSPACE_ARGB8888 => "IMAGE_UTIL_COLORSPACE_ARGB8888"
  | IMAGE_UTIL_COLORSPACE_BGRA8888 => "IMAGE_UTIL_COLORSPACE_BGRA8888"
  | IMAGE_UTIL_COLORSPACE_RGBA8888 => "IMAGE_UTIL_COLORSPACE_RGBA8888"
  | IMAGE_UTIL_COLORSPACE_BGRX8888 => "IMAGE_UTIL_COLORSPACE_BGRX8888"
  | IMAGE_UTIL_COLORSPACE_NV21 => "IMAGE_UTIL_COLORSPACE_NV21"
  | IMAGE_UTIL_COLORSPACE_NV16 => "IMAGE_UTIL_COLORSPACE_NV16"
  | IMAGE_UTIL_COLORSPACE_NV61 => "IMAGE_UTIL_COLORSPACE_NV61"

/-! ## The trace of outgoing calls -/

/-- One call that leaves `data.c`.  A call that hands out a new object carries the object
it returned (`none` when the call failed); handles and pointers are natural numbers and
`none` is `NULL`.  The logging macros `DLOG_PRINT_ERROR` and `DLOG_PRINT_DEBUG_MSG` come
from `main.h`, which is not among the sources: they are recorded with their arguments, as
is `PRINT_MSG` of `view.h`; the text they print is not rendered. -/
inductive Event where
  | PRINT_MSG (fmt : String) (args : List LogArg)
  | DLOG_PRINT_ERROR (fun_name : String) (error_code : Int)
  | DLOG_PRINT_DEBUG_MSG (fmt : String) (args : List LogArg)
  | dlog_print_error (fmt : String) (args : List LogArg)
  | _disable_button (button : Nat) (disabled : Bool)
  | opendir (path : String)
  | lstat (path : String)
  | image_util_decode_jpeg (path : String) (colorspace : image_util_colorspace_e)
      (img_source : Option Nat)
  | media_format_create (fmt : Option Nat)
  | media_format_set_video_mime (fmt : Nat) (mimetype : media_format_mimetype_e)
  | media_format_set_video_width (fmt : Nat) (width : Int)
  | media_format_set_video_height (fmt : Nat) (height : Int)
  | media_packet_create_alloc (fmt : Nat) (packet : Option Nat)
  | media_format_unref (fmt : Nat)
  | media_packet_get_buffer_data_ptr (packet : Option Nat)
  | memcpy (dest : Option Nat) (src : Nat) (n : Nat)
  | free (ptr : Nat)
  | image_util_transform_create (handle : Option Nat)
  | image_util_transform_set_hardware_acceleration (handle : Option Nat) (mode : Bool)
  | image_util_transform_set_colorspace (handle : Option Nat)
      (colorspace : image_util_colorspace_e)
  | image_util_transform_set_resolution (handle : Option Nat) (width : Nat) (height : Nat)
  | image_util_transform_run (handle : Option Nat) (src : Option Nat)
      (callback : transform_completed_cb)
  | image_util_transform_destroy (handle : Option Nat)
  | media_packet_destroy (packet : Option Nat)
  | media_packet_get_format (packet : Option Nat) (fmt : Option Nat)
  | media_format_get_video_info (fmt : Nat)
  | image_util_encode_jpeg (buffer : Option Nat) (width : Int) (height : Int)
      (colorspace : image_util_colorspace_e) (quality : Int) (path : String)
  deriving DecidableEq, Repr

/-! ## Program state -/

/-- The file-scope variables of `data.c` together with what the handlers read from the
outside world: the texts of the two entry fields of `s_info`, the disabled flags of the
buttons, the next object the SDK allocator hands out, and the trace of calls made so far. -/
@[ext]
structure State where
  handle : Option Nat
  media_packet : Option Nat
  images_directory : String
  image_util_filename_encoded : String
  resource_path : String
  transform_finished : Bool
  packet_h : Option Nat
  s_info_width : String
  s_info_height : String
  buttons_disabled : List Bool
  next_id : Nat
  trace : List Event
  deriving DecidableEq, Repr

/-- Record one outgoing call at the end of the trace. -/
def State.emit (s : State) (e : Event) : State :=
  { s with trace := s.trace ++ [e] }

/-- Take the next object from the SDK allocator. -/
def State.alloc (s : State) : State :=
  { s with next_id := s.next_id + 1 }

/-- The calls made between state `s` and the later state `t`. -/
def new_events (s t : State) : List Event :=
  t.trace.drop s.trace.length

/-- What `snprintf(buf, size, ...)` leaves in `buf` when the formatted text is `text`:
at most `size - 1` characters of it (one character per byte). -/
def snprintf (size : Nat) (text : String) : String :=
  String.mk (text.toList.take (size - 1))

/-- The C library's `isspace` in the "C" locale. -/
def isspace (c : Char) : Bool :=
  c.toNat = 32 || (9 ≤ c.toNat && c.toNat ≤ 13)

/-- The digit loop of `atoi`: accumulate decimal digits until the first other character. -/
def atoi_digits : List Char → Nat → Nat
  | [], acc => acc
  | c :: cs, acc =>
    if 48 ≤ c.toNat ∧ c.toNat ≤ 57 then atoi_digits cs (acc * 10 + (c.toNat - 48)) else acc

/-- The C library's `atoi`: skip white space, read an optional sign, then decimal digits.
The value is exact; the C function is only defined while it fits an `int`. -/
def atoi (text : String) : Int :=
  match text.toList.dropWhile isspace with
  | [] => 0
  | c :: cs =>
    if c = '-' then - (atoi_digits cs 0 : Int)
    else if c = '+' then (atoi_digits cs 0 : Int)
    else (atoi_digits (c :: cs) 0 : Int)

/-- Conversion of an `int` to `unsigned int` (32 bits). -/
def to_unsigned (i : Int) : Nat :=
  (i % (2 ^ 32 : Int)).toNat

/-- Modelled from the spec: `_disable_button` is defined in `view.c`, which is not among
the sources; the spec only says the buttons are UI controls that are disabled and
re-enabled.  The call is recorded and the disabled flag of that button is set. -/
def _disable_button (button : Nat) (disabled : Bool) (s : State) : State :=
  { (s.emit (Event._disable_button button disabled)) with
    buttons_disabled := s.buttons_disabled.set button disabled }

/-- The loop `for (app_button i = 0; i < BUTTON_COUNT; ++i) _disable_button(i, disabled);`,
counting `n` buttons upwards from button `i`. -/
def disable_buttons_from (disabled : Bool) : Nat → Nat → State → State
  | 0, _, s => s
  | n + 1, i, s => disable_buttons_from disabled n (i + 1) (_disable_button i disabled s)

/-! ## The click handler `_image_util_start_cb` -/

/-- One entry returned by `readdir`, with what the outside world answers while the loop
body runs for it: whether `S_ISDIR(buf.st_mode)` holds after the `lstat`, and the return
code (and outputs) of each SDK call of the loop body.  The return code of
`image_util_transform_set_resolution` may depend on the width and height it is given. -/
structure dirent_env where
  d_name : String
  st_isdir : Bool
  decode_jpeg : Int
  width : Int
  height : Int
  size_decode : Nat
  format_create : Int
  set_video_mime : Int
  set_video_width : Int
  set_video_height : Int
  packet_create_alloc : Int
  get_buffer_data_ptr : Int
  packet_buffer : Option Nat
  transform_create : Int
  set_hardware_acceleration : Int
  set_colorspace : Int
  set_resolution : Nat → Nat → Int
  transform_run : Int

/-- How one pass through the loop body ends: the loop goes on to the next `readdir`, or
the handler has executed `return`. -/
inductive Flow where
  | next
  | returned
  deriving DecidableEq, Repr

/-- Modelled from the spec: the macro `CHECK_ERROR(fun_name, error_code)` is defined in
`main.h`, which is not among the sources.  Following section 7 of the spec, a non-success
code is logged with the name of the failing call; whether the macro then also returns from
the enclosing function is left open, as the parameter `check_error_returns`. -/
def CHECK_ERROR (check_error_returns : Bool) (fun_name : String) (error_code : Int)
    (s : State) : State × Flow :=
  if error_code ≠ 0 then
    (s.emit (Event.DLOG_PRINT_ERROR fun_name error_code),
      if check_error_returns then Flow.returned else Flow.next)
  else (s, Flow.next)

/-- The part of the loop body from `image_util_transform_set_colorspace` to the end
(lines 352-390 of `data.c`). -/
def start_transform (entry : dirent_env) (s0 : State) : State × Flow :=
  let s := s0.emit (Event.PRINT_MSG "<b>Converting the image color space.</b>" [])
  let s := s.emit (Event.DLOG_PRINT_DEBUG_MSG "Converting the image color space." [])
  let colorspace := IMAGE_UTIL_COLORSPACE_NV12
  let s := s.emit (Event.image_util_transform_set_colorspace s.handle colorspace)
  if entry.set_colorspace ≠ IMAGE_UTIL_ERROR_NONE then
    let s := s.emit (Event.PRINT_MSG "image_util_transform_set_colorspace() failed." [])
    let s := s.emit (Event.DLOG_PRINT_ERROR "image_util_transform_set_colorspace"
      entry.set_colorspace)
    (s, Flow.returned)
  else
  let s := s.emit (Event.PRINT_MSG "Color space set to %s"
    [LogArg.str (_map_colorspace colorspace)])
  let new_width := to_unsigned (atoi s.s_info_width)
  let new_height := to_unsigned (atoi s.s_info_height)
  let s := s.emit (Event.image_util_transform_set_resolution s.handle new_width new_height)
  let error_code := entry.set_resolution new_width new_height
  if error_code ≠ IMAGE_UTIL_ERROR_NONE then
    let s := s.emit (Event.PRINT_MSG "image_util_transform_set_resolution() failed." [])
    let s := s.emit (Event.DLOG_PRINT_ERROR "image_util_transform_set_resolution"
      error_code)
    (s, Flow.returned)
  else
  let s := s.emit (Event.PRINT_MSG "New resolution is:%dx%d"
    [LogArg.int new_width, LogArg.int new_height])
  let filename := snprintf BUFLEN (s.images_directory ++ "/" ++ entry.d_name)
  let s := { s with image_util_filename_encoded := filename }
  let s := s.emit (Event.image_util_transform_run s.handle s.media_packet
    transform_completed_cb._image_util_completed_cb)
  if entry.transform_run ≠ IMAGE_UTIL_ERROR_NONE then
    let s := s.emit (Event.PRINT_MSG "image_util_transform_run() failed." [])
    let s := s.emit (Event.DLOG_PRINT_ERROR "image_util_transform_run" entry.transform_run)
    (s, Flow.next)
  else (s, Flow.next)

/-- The part of the loop body from `media_packet_create_alloc` to the hardware
acceleration call (lines 310-350 of `data.c`), followed by `start_transform`.
`fmt` and `img_source` are the locals of the loop body. -/
def start_packet (check_error_returns : Bool) (entry : dirent_env) (fmt img_source : Nat)
    (s0 : State) : State × Flow :=
  let packet := s0.next_id
  let created := entry.packet_create_alloc = MEDIA_PACKET_ERROR_NONE
  let s := s0.emit (Event.media_packet_create_alloc fmt (if created then some packet else none))
  if entry.packet_create_alloc ≠ MEDIA_PACKET_ERROR_NONE then
    let s := s.emit (Event.PRINT_MSG "media_packet_create_alloc() failed." [])
    let s := s.emit (Event.DLOG_PRINT_ERROR "media_packet_create_alloc"
      entry.packet_create_alloc)
    let s := s.emit (Event.media_format_unref fmt)
    let s := s.emit (Event.free img_source)
    (s, Flow.returned)
  else
  let s := { s.alloc with media_packet := some packet }
  let s := s.emit (Event.media_format_unref fmt)
  let s := s.emit (Event.media_packet_get_buffer_data_ptr s.media_packet)
  if entry.get_buffer_data_ptr ≠ MEDIA_PACKET_ERROR_NONE ∨ entry.packet_buffer = none then
    let s := s.emit (Event.PRINT_MSG "media_packet_get_buffer_data_ptr() failed." [])
    let s := s.emit (Event.DLOG_PRINT_ERROR "media_packet_get_buffer_data_ptr"
      entry.get_buffer_data_ptr)
    let s := s.emit (Event.free img_source)
    (s, Flow.returned)
  else
  let s := s.emit (Event.memcpy entry.packet_buffer img_source entry.size_decode)
  let s := s.emit (Event.free img_source)
  let new_handle := s.next_id
  let created := entry.transform_create = IMAGE_UTIL_ERROR_NONE
  let s := s.emit (Event.image_util_transform_create (if created then some new_handle else none))
  if entry.transform_create ≠ IMAGE_UTIL_ERROR_NONE then
    let s := s.emit (Event.PRINT_MSG "image_util_transform_create() failed." [])
    let s := s.emit (Event.DLOG_PRINT_ERROR "image_util_transform_create"
      entry.transform_create)
    (s, Flow.returned)
  else
  let s := { s.alloc with handle := some new_handle }
  let s := s.emit (Event.image_util_transform_set_hardware_acceleration s.handle false)
  let checked := CHECK_ERROR check_error_returns
    "image_util_transform_set_hardware_acceleration" entry.set_hardware_acceleration s
  match checked.2 with
  | Flow.returned => checked
  | Flow.next => start_transform entry checked.1

/-- The loop body of `_image_util_start_cb` for one `readdir` entry (lines 245-390 of
`data.c`): skip a directory, decode the file, build the format, then `start_packet`. -/
def start_file (check_error_returns : Bool) (entry : dirent_env) (s0 : State) :
    State × Flow :=
  let s := s0.emit (Event.lstat entry.d_name)
  if entry.st_isdir then (s, Flow.next) else
  let s := s.emit (Event.PRINT_MSG "img: %s" [LogArg.str entry.d_name])
  let input_file_path := snprintf BUFLEN (s.resource_path ++ "/" ++ entry.d_name)
  let img_source := s.next_id
  let decoded := entry.decode_jpeg = IMAGE_UTIL_ERROR_NONE
  let s := s.emit (Event.image_util_decode_jpeg input_file_path IMAGE_UTIL_COLORSPACE_RGB888
    (if decoded then some img_source else none))
  if entry.decode_jpeg ≠ IMAGE_UTIL_ERROR_NONE then
    let s := s.emit (Event.PRINT_MSG "image_util_decode_jpeg() failed." [])
    let s := s.emit (Event.DLOG_PRINT_ERROR "image_util_decode_jpeg" entry.decode_jpeg)
    (s, Flow.returned)
  else
  let s := s.alloc
  let s := s.emit (Event.DLOG_PRINT_DEBUG_MSG "Decoded image width: %d height: %d size %d"
    [LogArg.int entry.width, LogArg.int entry.height, LogArg.int entry.size_decode])
  let fmt := s.next_id
  let created := entry.format_create = MEDIA_FORMAT_ERROR_NONE
  let s := s.emit (Event.media_format_create (if created then some fmt else none))
  if entry.format_create ≠ MEDIA_FORMAT_ERROR_NONE then
    let s := s.emit (Event.PRINT_MSG "media_format_create() failed." [])
    let s := s.emit (Event.DLOG_PRINT_ERROR "media_format_create" entry.format_create)
    let s := s.emit (Event.free img_source)
    (s, Flow.returned)
  else
  let s := s.alloc
  let s := s.emit (Event.media_format_set_video_mime fmt MEDIA_FORMAT_RGB888)
  if entry.set_video_mime ≠ MEDIA_FORMAT_ERROR_NONE then
    let s := s.emit (Event.PRINT_MSG "media_format_set_video_mime() failed." [])
    let s := s.emit (Event.DLOG_PRINT_ERROR "media_format_set_video_mime"
      entry.set_video_mime)
    let s := s.emit (Event.media_format_unref fmt)
    let s := s.emit (Event.free img_source)
    (s, Flow.returned)
  else
  let s := s.emit (Event.media_format_set_video_width fmt entry.width)
  if entry.set_video_width ≠ MEDIA_FORMAT_ERROR_NONE then
    let s := s.emit (Event.PRINT_MSG "media_format_set_video_width() failed." [])
    let s := s.emit (Event.DLOG_PRINT_ERROR "media_format_set_video_width"
      entry.set_video_width)
    let s := s.emit (Event.media_format_unref fmt)
    let s := s.emit (Event.free img_source)
    (s, Flow.returned)
  else
  let s := s.emit (Event.media_format_set_video_height fmt entry.height)
  if entry.set_video_height ≠ MEDIA_FORMAT_ERROR_NONE then
    let s := s.emit (Event.PRINT_MSG "media_format_set_video_height() failed." [])
    let s := s.emit (Event.DLOG_PRINT_ERROR "media_format_set_video_height"
      entry.set_video_height)
    let s := s.emit (Event.media_format_unref fmt)
    let s := s.emit (Event.free img_source)
    (s, Flow.returned)
  else start_packet check_error_returns entry fmt img_source s

/-- The `while ((entry = readdir(res)) != NULL)` loop over the entries that `readdir`
returns, in order; it stops at the first entry whose loop body returns. -/
def start_loop (check_error_returns : Bool) : List dirent_env → State → State
  | [], s => s
  | entry :: rest, s =>
    match start_file check_error_returns entry s with
    | (s1, Flow.returned) => s1
    | (s1, Flow.next) => start_loop check_error_returns rest s1

/-- The click handler `_image_util_start_cb`.  `res` is what `opendir(resource_path)`
gives: `none` when it returns `NULL`, otherwise the entries that `readdir` will return. -/
def _image_util_start_cb (check_error_returns : Bool) (res : Option (List dirent_env))
    (s0 : State) : State :=
  let s := { s0 with transform_finished := false }
  let s := disable_buttons_from true BUTTON_COUNT 0 s
  let s := s.emit (Event.PRINT_MSG "Running transforming!" [])
  let s := s.emit (Event.opendir s.resource_path)
  match res with
  | none =>
    let s := s.emit (Event.DLOG_PRINT_ERROR "Cannot open resource_path" 0)
    let s := s.emit (Event.PRINT_MSG "Cannot open resource_path" [])
    s
  | some entries => start_loop check_error_returns entries s

/-! ## The completion callback and the idle callback -/

/-- What the SDK answers inside one run of `_image_util_completed_cb`: the return codes
of the four calls and the values they write through their output parameters. -/
structure completed_env where
  get_format : Int
  fmt : Nat
  get_video_info : Int
  mimetype : media_format_mimetype_e
  width : Int
  height : Int
  get_buffer_data_ptr : Int
  packet_buffer : Option Nat
  encode_jpeg : Int
  deriving DecidableEq, Repr

/-- The completion callback `_image_util_completed_cb(dst, error_code, user_data)`.
`dst` is `none` for a `NULL` pointer and `some p` for a pointer to the packet handle `p`.
The first statement `packet_h = *dst` dereferences `dst`, so the function has no defined
result for a `NULL` `dst` (`none`). -/
def _image_util_completed_cb (dst : Option (Option Nat)) (error_code : Int)
    (env : completed_env) (s0 : State) : Option State :=
  match dst with
  | none => none
  | some packet =>
  let s := { s0 with packet_h := packet }
  let s := s.emit (Event.PRINT_MSG "Transformation finished!" [])
  if error_code ≠ IMAGE_UTIL_ERROR_NONE ∨ dst = none then
    let s := s.emit (Event.dlog_print_error
      "An error occurred during transformation.<br>Error code: %d." [LogArg.int error_code])
    let s := s.emit (Event.PRINT_MSG "An error occurred during transformation." [])
    some { s with transform_finished := true }
  else
  let got_format := env.get_format = MEDIA_PACKET_ERROR_NONE
  let s := s.emit (Event.media_packet_get_format packet
    (if got_format then some env.fmt else none))
  if env.get_format ≠ MEDIA_PACKET_ERROR_NONE then
    let s := s.emit (Event.DLOG_PRINT_ERROR "media_packet_get_format" env.get_format)
    let s := s.emit (Event.PRINT_MSG "error media_packet_get_format" [])
    let s := s.emit (Event.image_util_transform_destroy s.handle)
    some s
  else
  let s := s.emit (Event.media_format_get_video_info env.fmt)
  if env.get_video_info ≠ MEDIA_FORMAT_ERROR_NONE then
    let s := s.emit (Event.DLOG_PRINT_ERROR "media_format_get_video_info" env.get_video_info)
    let s := s.emit (Event.media_format_unref env.fmt)
    let s := s.emit (Event.image_util_transform_destroy s.handle)
    some s
  else
  let s := s.emit (Event.media_format_unref env.fmt)
  let s := s.emit (Event.media_packet_get_buffer_data_ptr packet)
  if env.get_buffer_data_ptr ≠ MEDIA_PACKET_ERROR_NONE then
    let s := s.emit (Event.DLOG_PRINT_ERROR "media_packet_get_buffer_data_ptr"
      env.get_buffer_data_ptr)
    let s := s.emit (Event.PRINT_MSG "error media_packet_get_buffer_data_ptr" [])
    let s := s.emit (Event.image_util_transform_destroy s.handle)
    some s
  else
  if env.mimetype = MEDIA_FORMAT_NV12 then
    let s := s.emit (Event.image_util_encode_jpeg env.packet_buffer env.width env.height
      IMAGE_UTIL_COLORSPACE_NV12 100 s.image_util_filename_encoded)
    if env.encode_jpeg ≠ IMAGE_UTIL_ERROR_NONE then
      let s := s.emit (Event.DLOG_PRINT_ERROR "image_util_encode_jpeg" env.encode_jpeg)
      let s := s.emit (Event.PRINT_MSG "error image_util_encode_jpeg" [])
      let s := s.emit (Event.image_util_transform_destroy s.handle)
      some s
    else
    let s := s.emit (Event.DLOG_PRINT_DEBUG_MSG "Transformed image file saved at %s"
      [LogArg.str s.image_util_filename_encoded])
    some { s with transform_finished := true }
  else some { s with transform_finished := true }

/-- The idle callback `_btn_enable`; the second component is the returned `Eina_Bool`. -/
def _btn_enable (s0 : State) : State × Bool :=
  if s0.transform_finished then
    let s := s0.emit (Event.image_util_transform_destroy s0.handle)
    let s := { s with handle := none }
    let s := s.emit (Event.media_packet_destroy s.packet_h)
    let s := { s with packet_h := none }
    let s := disable_buttons_from false BUTTON_COUNT 0 s
    ({ s with transform_finished := false }, true)
  else (s0, true)

/-! ## Reading the trace -/

/-- Whether an event is a call on a pipeline object (decode, format, packet, buffer,
transform, encode), as opposed to logging, button handling and directory access. -/
def Event.is_pipeline_call : Event → Bool
  | Event.PRINT_MSG _ _ => false
  | Event.DLOG_PRINT_ERROR _ _ => false
  | Event.DLOG_PRINT_DEBUG_MSG _ _ => false
  | Event.dlog_print_error _ _ => false
  | Event._disable_button _ _ => false
  | Event.opendir _ => false
  | Event.lstat _ => false
  | _ => true

/-- Whether an event is a call of `image_util_decode_jpeg`. -/
def Event.is_decode : Event → Bool
  | Event.image_util_decode_jpeg _ _ _ => true
  | _ => false

/-- Whether an event is a call of `image_util_transform_run`. -/
def Event.is_transform_run : Event → Bool
  | Event.image_util_transform_run _ _ _ => true
  | _ => false

/-- Whether an event is a call of `image_util_encode_jpeg`. -/
def Event.is_encode : Event → Bool
  | Event.image_util_encode_jpeg _ _ _ _ _ _ => true
  | _ => false

/-- Whether an event is a `DLOG_PRINT_ERROR` log line. -/
def Event.is_error_log : Event → Bool
  | Event.DLOG_PRINT_ERROR _ _ => true
  | _ => false

/-- Whether an event is a call of `free`. -/
def Event.is_free : Event → Bool
  | Event.free _ => true
  | _ => false

/-- Whether an event is a call of `media_format_unref`. -/
def Event.is_format_unref : Event → Bool
  | Event.media_format_unref _ => true
  | _ => false

/-- Whether an event is a call of `image_util_transform_destroy` or `media_packet_destroy`. -/
def Event.is_destroy : Event → Bool
  | Event.image_util_transform_destroy _ => true
  | Event.media_packet_destroy _ => true
  | _ => false

/-- Whether an event is a call of `_disable_button`. -/
def Event.is_button_call : Event → Bool
  | Event._disable_button _ _ => true
  | _ => false

/-- The transform handles that `image_util_transform_create` has handed out in the trace
and that no later `image_util_transform_destroy` has released. -/
def live_transform_handles (trace : List Event) : List Nat :=
  trace.foldl (fun live ev =>
    match ev with
    | Event.image_util_transform_create (some h) => live ++ [h]
    | Event.image_util_transform_destroy (some h) => live.erase h
    | _ => live) []

/-- The packets that `media_packet_create_alloc` has handed out in the trace and that no
later `media_packet_destroy` has released. -/
def live_packets (trace : List Event) : List Nat :=
  trace.foldl (fun live ev =>
    match ev with
    | Event.media_packet_create_alloc _ (some p) => live ++ [p]
    | Event.media_packet_destroy (some p) => live.erase p
    | _ => live) []

/-- The format references that the program holds: one for each successful
`media_format_create` and `media_packet_get_format`, released by `media_format_unref`. -/
def live_formats (trace : List Event) : List Nat :=
  trace.foldl (fun live ev =>
    match ev with
    | Event.media_format_create (some f) => live ++ [f]
    | Event.media_packet_get_format _ (some f) => live ++ [f]
    | Event.media_format_unref f => live.erase f
    | _ => live) []

/-! ## Concrete inputs -/

/-- The state after `create_buttons_in_main_window`: no handle, no packet, the resource
and Images directories known, all four buttons enabled, and a target of 640 x 480 typed
into the entry fields. -/
def initial_state : State :=
  { handle := none
    media_packet := none
    images_directory := "/opt/usr/media/Images"
    image_util_filename_encoded := ""
    resource_path := "/opt/usr/apps/imageutil/res"
    transform_finished := false
    packet_h := none
    s_info_width := "640"
    s_info_height := "480"
    buttons_disabled := [false, false, false, false]
    next_id := 1
    trace := [] }

/-- A regular file named `name` for which every SDK call succeeds: a 4 x 2 RGB888 image
of 24 bytes, whose packet buffer is at address 9000. -/
def ok_entry (name : String) : dirent_env :=
  { d_name := name
    st_isdir := false
    decode_jpeg := 0
    width := 4
    height := 2
    size_decode := 24
    format_create := 0
    set_video_mime := 0
    set_video_width := 0
    set_video_height := 0
    packet_create_alloc := 0
    get_buffer_data_ptr := 0
    packet_buffer := some 9000
    transform_create := 0
    set_hardware_acceleration := 0
    set_colorspace := 0
    set_resolution := fun _ _ => 0
    transform_run := 0 }

/-- A regular file named `name` for which only `image_util_transform_run` fails. -/
def run_fails_entry (name : String) : dirent_env :=
  { ok_entry name with transform_run := -1 }

/-- A regular file named `name` for which `image_util_decode_jpeg` fails. -/
def decode_fails_entry (name : String) : dirent_env :=
  { ok_entry name with decode_jpeg := -1 }

/-- A regular file named `name` for which every SDK call succeeds, except that
`image_util_transform_set_resolution` rejects a zero width or height with
`IMAGE_UTIL_ERROR_INVALID_PARAMETER` (-22). -/
def rejects_zero_entry (name : String) : dirent_env :=
  { ok_entry name with set_resolution := fun w h => if w = 0 ∨ h = 0 then -22 else 0 }

/-- The state of `initial_state` with a target width of 0 typed into the width field. -/
def zero_width_state : State :=
  { initial_state with s_info_width := "0" }

/-- The answers of the SDK inside a completion callback in which every call succeeds and
the output is a 640 x 480 NV12 image. -/
def nv12_env : completed_env :=
  { get_format := 0
    fmt := 7000
    get_video_info := 0
    mimetype := MEDIA_FORMAT_NV12
    width := 640
    height := 480
    get_buffer_data_ptr := 0
    packet_buffer := some 9100
    encode_jpeg := 0 }

/-- The state after one click on a resource directory that holds the single file `a.jpg`,
every SDK call succeeding. -/
def one_file_started : State :=
  _image_util_start_cb false (some [ok_entry "a.jpg"]) initial_state

/-- The state after one click on a resource directory that holds the two files `a.jpg`
and `b.jpg`, every SDK call succeeding. -/
def two_files_started : State :=
  _image_util_start_cb false (some [ok_entry "a.jpg", ok_entry "b.jpg"]) initial_state

/-- A state in which a transform has completed: handle 4 and the output packet 100 are
still set, the completion flag is raised and the four buttons are disabled. -/
def finished_state : State :=
  { initial_state with
    handle := some 4
    media_packet := some 3
    packet_h := some 100
    transform_finished := true
    buttons_disabled := [true, true, true, true]
    next_id := 5 }

/-- A directory entry named `name`. -/
def directory_entry (name : String) : dirent_env :=
  { ok_entry name with st_isdir := true }

/-! ## Projections of the state updates -/

@[simp] theorem emit_handle (s : State) (e : Event) : (s.emit e).handle = s.handle := rfl

@[simp] theorem emit_media_packet (s : State) (e : Event) : (s.emit e).media_packet = s.media_packet := rfl

@[simp] theorem emit_images_directory (s : State) (e : Event) : (s.emit e).images_directory = s.images_directory := rfl

@[simp] theorem emit_image_util_filename_encoded (s : State) (e : Event) : (s.emit e).image_util_filename_encoded = s.image_util_filename_encoded := rfl

@[simp] theorem emit_resource_path (s : State) (e : Event) : (s.emit e).resource_path = s.resource_path := rfl

@[simp] theorem emit_transform_finished (s : State) (e : Event) : (s.emit e).transform_finished = s.transform_finished := rfl

@[simp] theorem emit_packet_h (s : State) (e : Event) : (s.emit e).packet_h = s.packet_h := rfl

@[simp] theorem emit_s_info_width (s : State) (e : Event) : (s.emit e).s_info_width = s.s_info_width := rfl

@[simp] theorem emit_s_info_height (s : State) (e : Event) : (s.emit e).s_info_height = s.s_info_height := rfl

@[simp] theorem emit_buttons_disabled (s : State) (e : Event) : (s.emit e).buttons_disabled = s.buttons_disabled := rfl

@[simp] theorem emit_next_id (s : State) (e : Event) : (s.emit e).next_id = s.next_id := rfl

@[simp] theorem emit_trace (s : State) (e : Event) : (s.emit e).trace = s.trace ++ [e] := rfl

@[simp] theorem alloc_handle (s : State) : s.alloc.handle = s.handle := rfl

@[simp] theorem alloc_media_packet (s : State) : s.alloc.media_packet = s.media_packet := rfl

@[simp] theorem alloc_images_directory (s : State) : s.alloc.images_directory = s.images_directory := rfl

@[simp] theorem alloc_image_util_filename_encoded (s : State) : s.alloc.image_util_filename_encoded = s.image_util_filename_encoded := rfl

@[simp] theorem alloc_resource_path (s : State) : s.alloc.resource_path = s.resource_path := rfl

@[simp] theorem alloc_transform_finished (s : State) : s.alloc.transform_finished = s.transform_finished := rfl

@[simp] theorem alloc_packet_h (s : State) : s.alloc.packet_h = s.packet_h := rfl

@[simp] theorem alloc_s_info_width (s : State) : s.alloc.s_info_width = s.s_info_width := rfl

@[simp] theorem alloc_s_info_height (s : State) : s.alloc.s_info_height = s.s_info_height := rfl

@[simp] theorem alloc_buttons_disabled (s : State) : s.alloc.buttons_disabled = s.buttons_disabled := rfl

@[simp] theorem alloc_trace (s : State) : s.alloc.trace = s.trace := rfl

@[simp] theorem alloc_next_id (s : State) : s.alloc.next_id = s.next_id + 1 := rfl

attribute [irreducible] State.emit State.alloc

/-! ## Symbolic execution of the loop body

One lemma per path through the loop body of `_image_util_start_cb`: the state after the
pass and whether the handler returned.  The decoded buffer is object `s.next_id`, the
format `s.next_id + 1`, the packet `s.next_id + 2` and the transform handle
`s.next_id + 3`. -/

/-- The loop body skips an entry for which `S_ISDIR` holds. -/
theorem start_file_directory (check_error_returns : Bool) (e : dirent_env) (s : State)
    (hd : e.st_isdir = true) :
    start_file check_error_returns e s =
      ({ s with trace := s.trace ++ [Event.lstat e.d_name] }, Flow.next) := by
  simp [start_file, hd]
  apply State.ext <;> simp

/-- The loop body on a file for which `image_util_decode_jpeg` fails. -/
theorem start_file_decode_failed (check_error_returns : Bool) (e : dirent_env) (s : State)
    (hd : e.st_isdir = false)
    (h1 : e.decode_jpeg ≠ 0) :
    start_file check_error_returns e s =
      ({ s with
        trace := s.trace ++
          [Event.lstat e.d_name,
           Event.PRINT_MSG "img: %s" [LogArg.str e.d_name],
           Event.image_util_decode_jpeg (snprintf BUFLEN (s.resource_path ++ "/" ++ e.d_name))
             IMAGE_UTIL_COLORSPACE_RGB888 none,
           Event.PRINT_MSG "image_util_decode_jpeg() failed." [],
           Event.DLOG_PRINT_ERROR "image_util_decode_jpeg" e.decode_jpeg] },
       Flow.returned) := by
  simp [start_file, start_packet, start_transform, CHECK_ERROR, _map_colorspace,
    hd, h1]
  apply State.ext <;> simp

/-- The loop body on a file for which `media_format_create` fails. -/
theorem start_file_format_create_failed (check_error_returns : Bool) (e : dirent_env) (s : State)
    (hd : e.st_isdir = false)
    (h1 : e.decode_jpeg = 0)
    (h2 : e.format_create ≠ 0) :
    start_file check_error_returns e s =
      ({ s with
        trace := s.trace ++
          [Event.lstat e.d_name,
           Event.PRINT_MSG "img: %s" [LogArg.str e.d_name],
           Event.image_util_decode_jpeg (snprintf BUFLEN (s.resource_path ++ "/" ++ e.d_name))
             IMAGE_UTIL_COLORSPACE_RGB888 (some s.next_id),
           Event.DLOG_PRINT_DEBUG_MSG "Decoded image width: %d height: %d size %d"
             [LogArg.int e.width, LogArg.int e.height, LogArg.int e.size_decode],
           Event.media_format_create none,
           Event.PRINT_MSG "media_format_create() failed." [],
           Event.DLOG_PRINT_ERROR "media_format_create" e.format_create,
           Event.free s.next_id],
        next_id := s.next_id + 1 },
       Flow.returned) := by
  simp [start_file, start_packet, start_transform, CHECK_ERROR, _map_colorspace,
    hd, h1, h2]
  apply State.ext <;> simp

/-- The loop body on a file for which `media_format_set_video_mime` fails. -/
theorem start_file_set_video_mime_failed (check_error_returns : Bool) (e : dirent_env) (s : State)
    (hd : e.st_isdir = false)
    (h1 : e.decode_jpeg = 0)
    (h2 : e.format_create = 0)
    (h3 : e.set_video_mime ≠ 0) :
    start_file check_error_returns e s =
      ({ s with
        trace := s.trace ++
          [Event.lstat e.d_name,
           Event.PRINT_MSG "img: %s" [LogArg.str e.d_name],
           Event.image_util_decode_jpeg (snprintf BUFLEN (s.resource_path ++ "/" ++ e.d_name))
             IMAGE_UTIL_COLORSPACE_RGB888 (some s.next_id),
           Event.DLOG_PRINT_DEBUG_MSG "Decoded image width: %d height: %d size %d"
             [LogArg.int e.width, LogArg.int e.height, LogArg.int e.size_decode],
           Event.media_format_create (some (s.next_id + 1)),
           Event.media_format_set_video_mime (s.next_id + 1) MEDIA_FORMAT_RGB888,
           Event.PRINT_MSG "media_format_set_video_mime() failed." [],
           Event.DLOG_PRINT_ERROR "media_format_set_video_mime" e.set_video_mime,
           Event.media_format_unref (s.next_id + 1),
           Event.free s.next_id],
        next_id := s.next_id + 2 },
       Flow.returned) := by
  simp [start_file, start_packet, start_transform, CHECK_ERROR, _map_colorspace,
    hd, h1, h2, h3]
  apply State.ext <;> simp

/-- The loop body on a file for which `media_format_set_video_width` fails. -/
theorem start_file_set_video_width_failed (check_error_returns : Bool) (e : dirent_env) (s : State)
    (hd : e.st_isdir = false)
    (h1 : e.decode_jpeg = 0)
    (h2 : e.format_create = 0)
    (h3 : e.set_video_mime = 0)
    (h4 : e.set_video_width ≠ 0) :
    start_file check_error_returns e s =
      ({ s with
        trace := s.trace ++
          [Event.lstat e.d_name,
           Event.PRINT_MSG "img: %s" [LogArg.str e.d_name],
           Event.image_util_decode_jpeg (snprintf BUFLEN (s.resource_path ++ "/" ++ e.d_name))
             IMAGE_UTIL_COLORSPACE_RGB888 (some s.next_id),
           Event.DLOG_PRINT_DEBUG_MSG "Decoded image width: %d height: %d size %d"
             [LogArg.int e.width, LogArg.int e.height, LogArg.int e.size_decode],
           Event.media_format_create (some (s.next_id + 1)),
           Event.media_format_set_video_mime (s.next_id + 1) MEDIA_FORMAT_RGB888,
           Event.media_format_set_video_width (s.next_id + 1) e.width,
           Event.PRINT_MSG "media_format_set_video_width() failed." [],
           Event.DLOG_PRINT_ERROR "media_format_set_video_width" e.set_video_width,
           Event.media_format_unref (s.next_id + 1),
           Event.free s.next_id],
        next_id := s.next_id + 2 },
       Flow.returned) := by
  simp [start_file, start_packet, start_transform, CHECK_ERROR, _map_colorspace,
    hd, h1, h2, h3, h4]
  apply State.ext <;> simp

/-- The loop body on a file for which `media_format_set_video_height` fails. -/
theorem start_file_set_video_height_failed (check_error_returns : Bool) (e : dirent_env) (s : State)
    (hd : e.st_isdir = false)
    (h1 : e.decode_jpeg = 0)
    (h2 : e.format_create = 0)
    (h3 : e.set_video_mime = 0)
    (h4 : e.set_video_width = 0)
    (h5 : e.set_video_height ≠ 0) :
    start_file check_error_returns e s =
      ({ s with
        trace := s.trace ++
          [Event.lstat e.d_name,
           Event.PRINT_MSG "img: %s" [LogArg.str e.d_name],
           Event.image_util_decode_jpeg (snprintf BUFLEN (s.resource_path ++ "/" ++ e.d_name))
             IMAGE_UTIL_COLORSPACE_RGB888 (some s.next_id),
           Event.DLOG_PRINT_DEBUG_MSG "Decoded image width: %d height: %d size %d"
             [LogArg.int e.width, LogArg.int e.height, LogArg.int e.size_decode],
           Event.media_format_create (some (s.next_id + 1)),
           Event.media_format_set_video_mime (s.next_id + 1) MEDIA_FORMAT_RGB888,
           Event.media_format_set_video_width (s.next_id + 1) e.width,
           Event.media_format_set_video_height (s.next_id + 1) e.height,
           Event.PRINT_MSG "media_format_set_video_height() failed." [],
           Event.DLOG_PRINT_ERROR "media_format_set_video_height" e.set_video_height,
           Event.media_format_unref (s.next_id + 1),
           Event.free s.next_id],
        next_id := s.next_id + 2 },
       Flow.returned) := by
  simp [start_file, start_packet, start_transform, CHECK_ERROR, _map_colorspace,
    hd, h1, h2, h3, h4, h5]
  apply State.ext <;> simp

/-- The loop body on a file for which `media_packet_create_alloc` fails. -/
theorem start_file_packet_create_alloc_failed (check_error_returns : Bool) (e : dirent_env) (s : State)
    (hd : e.st_isdir = false)
    (h1 : e.decode_jpeg = 0)
    (h2 : e.format_create = 0)
    (h3 : e.set_video_mime = 0)
    (h4 : e.set_video_width = 0)
    (h5 : e.set_video_height = 0)
    (h6 : e.packet_create_alloc ≠ 0) :
    start_file check_error_returns e s =
      ({ s with
        trace := s.trace ++
          [Event.lstat e.d_name,
           Event.PRINT_MSG "img: %s" [LogArg.str e.d_name],
           Event.image_util_decode_jpeg (snprintf BUFLEN (s.resource_path ++ "/" ++ e.d_name))
             IMAGE_UTIL_COLORSPACE_RGB888 (some s.next_id),
           Event.DLOG_PRINT_DEBUG_MSG "Decoded image width: %d height: %d size %d"
             [LogArg.int e.width, LogArg.int e.height, LogArg.int e.size_decode],
           Event.media_format_create (some (s.next_id + 1)),
           Event.media_format_set_video_mime (s.next_id + 1) MEDIA_FORMAT_RGB888,
           Event.media_format_set_video_width (s.next_id + 1) e.width,
           Event.media_format_set_video_height (s.next_id + 1) e.height,
           Event.media_packet_create_alloc (s.next_id + 1) none,
           Event.PRINT_MSG "media_packet_create_alloc() failed." [],
           Event.DLOG_PRINT_ERROR "media_packet_create_alloc" e.packet_create_alloc,
           Event.media_format_unref (s.next_id + 1),
           Event.free s.next_id],
        next_id := s.next_id + 2 },
       Flow.returned) := by
  simp [start_file, start_packet, start_transform, CHECK_ERROR, _map_colorspace,
    hd, h1, h2, h3, h4, h5, h6]
  apply State.ext <;> simp

/-- The loop body on a file for which `media_packet_get_buffer_data_ptr` fails or gives a `NULL` buffer. -/
theorem start_file_get_buffer_failed (check_error_returns : Bool) (e : dirent_env) (s : State)
    (hd : e.st_isdir = false)
    (h1 : e.decode_jpeg = 0)
    (h2 : e.format_create = 0)
    (h3 : e.set_video_mime = 0)
    (h4 : e.set_video_width = 0)
    (h5 : e.set_video_height = 0)
    (h6 : e.packet_create_alloc = 0)
    (h7 : e.get_buffer_data_ptr ≠ 0 ∨ e.packet_buffer = none) :
    start_file check_error_returns e s =
      ({ s with
        trace := s.trace ++
          [Event.lstat e.d_name,
           Event.PRINT_MSG "img: %s" [LogArg.str e.d_name],
           Event.image_util_decode_jpeg (snprintf BUFLEN (s.resource_path ++ "/" ++ e.d_name))
             IMAGE_UTIL_COLORSPACE_RGB888 (some s.next_id),
           Event.DLOG_PRINT_DEBUG_MSG "Decoded image width: %d height: %d size %d"
             [LogArg.int e.width, LogArg.int e.height, LogArg.int e.size_decode],
           Event.media_format_create (some (s.next_id + 1)),
           Event.media_format_set_video_mime (s.next_id + 1) MEDIA_FORMAT_RGB888,
           Event.media_format_set_video_width (s.next_id + 1) e.width,
           Event.media_format_set_video_height (s.next_id + 1) e.height,
           Event.media_packet_create_alloc (s.next_id + 1) (some (s.next_id + 2)),
           Event.media_format_unref (s.next_id + 1),
           Event.media_packet_get_buffer_data_ptr (some (s.next_id + 2)),
           Event.PRINT_MSG "media_packet_get_buffer_data_ptr() failed." [],
           Event.DLOG_PRINT_ERROR "media_packet_get_buffer_data_ptr" e.get_buffer_data_ptr,
           Event.free s.next_id],
        next_id := s.next_id + 3,
        media_packet := some (s.next_id + 2) },
       Flow.returned) := by
  simp [start_file, start_packet, start_transform, CHECK_ERROR, _map_colorspace,
    hd, h1, h2, h3, h4, h5, h6, h7]
  apply State.ext <;> simp

/-- The loop body on a file for which `image_util_transform_create` fails. -/
theorem start_file_transform_create_failed (check_error_returns : Bool) (e : dirent_env) (s : State)
    (hd : e.st_isdir = false)
    (h1 : e.decode_jpeg = 0)
    (h2 : e.format_create = 0)
    (h3 : e.set_video_mime = 0)
    (h4 : e.set_video_width = 0)
    (h5 : e.set_video_height = 0)
    (h6 : e.packet_create_alloc = 0)
    (h7 : e.get_buffer_data_ptr = 0 ∧ e.packet_buffer ≠ none)
    (h8 : e.transform_create ≠ 0) :
    start_file check_error_returns e s =
      ({ s with
        trace := s.trace ++
          [Event.lstat e.d_name,
           Event.PRINT_MSG "img: %s" [LogArg.str e.d_name],
           Event.image_util_decode_jpeg (snprintf BUFLEN (s.resource_path ++ "/" ++ e.d_name))
             IMAGE_UTIL_COLORSPACE_RGB888 (some s.next_id),
           Event.DLOG_PRINT_DEBUG_MSG "Decoded image width: %d height: %d size %d"
             [LogArg.int e.width, LogArg.int e.height, LogArg.int e.size_decode],
           Event.media_format_create (some (s.next_id + 1)),
           Event.media_format_set_video_mime (s.next_id + 1) MEDIA_FORMAT_RGB888,
           Event.media_format_set_video_width (s.next_id + 1) e.width,
           Event.media_format_set_video_height (s.next_id + 1) e.height,
           Event.media_packet_create_alloc (s.next_id + 1) (some (s.next_id + 2)),
           Event.media_format_unref (s.next_id + 1),
           Event.media_packet_get_buffer_data_ptr (some (s.next_id + 2)),
           Event.memcpy e.packet_buffer s.next_id e.size_decode,
           Event.free s.next_id,
           Event.image_util_transform_create none,
           Event.PRINT_MSG "image_util_transform_create() failed." [],
           Event.DLOG_PRINT_ERROR "image_util_transform_create" e.transform_create],
        next_id := s.next_id + 3,
        media_packet := some (s.next_id + 2) },
       Flow.returned) := by
  obtain ⟨h7, h7b⟩ := h7
  simp [start_file, start_packet, start_transform, CHECK_ERROR, _map_colorspace,
    hd, h1, h2, h3, h4, h5, h6, h7, h7b, h8]
  apply State.ext <;> simp

/-- The loop body on a file for which the hardware acceleration call fails and `CHECK_ERROR` returns. -/
theorem start_file_check_error_returned (check_error_returns : Bool) (e : dirent_env) (s : State)
    (hd : e.st_isdir = false)
    (h1 : e.decode_jpeg = 0)
    (h2 : e.format_create = 0)
    (h3 : e.set_video_mime = 0)
    (h4 : e.set_video_width = 0)
    (h5 : e.set_video_height = 0)
    (h6 : e.packet_create_alloc = 0)
    (h7 : e.get_buffer_data_ptr = 0 ∧ e.packet_buffer ≠ none)
    (h8 : e.transform_create = 0)
    (h9 : check_error_returns = true ∧ e.set_hardware_acceleration ≠ 0) :
    start_file check_error_returns e s =
      ({ s with
        trace := s.trace ++
          [Event.lstat e.d_name,
           Event.PRINT_MSG "img: %s" [LogArg.str e.d_name],
           Event.image_util_decode_jpeg (snprintf BUFLEN (s.resource_path ++ "/" ++ e.d_name))
             IMAGE_UTIL_COLORSPACE_RGB888 (some s.next_id),
           Event.DLOG_PRINT_DEBUG_MSG "Decoded image width: %d height: %d size %d"
             [LogArg.int e.width, LogArg.int e.height, LogArg.int e.size_decode],
           Event.media_format_create (some (s.next_id + 1)),
           Event.media_format_set_video_mime (s.next_id + 1) MEDIA_FORMAT_RGB888,
           Event.media_format_set_video_width (s.next_id + 1) e.width,
           Event.media_format_set_video_height (s.next_id + 1) e.height,
           Event.media_packet_create_alloc (s.next_id + 1) (some (s.next_id + 2)),
           Event.media_format_unref (s.next_id + 1),
           Event.media_packet_get_buffer_data_ptr (some (s.next_id + 2)),
           Event.memcpy e.packet_buffer s.next_id e.size_decode,
           Event.free s.next_id,
           Event.image_util_transform_create (some (s.next_id + 3)),
           Event.image_util_transform_set_hardware_acceleration (some (s.next_id + 3)) false,
           Event.DLOG_PRINT_ERROR "image_util_transform_set_hardware_acceleration"
             e.set_hardware_acceleration],
        next_id := s.next_id + 4,
        media_packet := some (s.next_id + 2),
        handle := some (s.next_id + 3) },
       Flow.returned) := by
  obtain ⟨h7, h7b⟩ := h7
  obtain ⟨h9, h9b⟩ := h9
  simp [start_file, start_packet, start_transform, CHECK_ERROR, _map_colorspace,
    hd, h1, h2, h3, h4, h5, h6, h7, h7b, h8, h9, h9b]
  apply State.ext <;> simp

/-- The loop body on a file for which `image_util_transform_set_colorspace` fails. -/
theorem start_file_set_colorspace_failed (check_error_returns : Bool) (e : dirent_env) (s : State)
    (hd : e.st_isdir = false)
    (h1 : e.decode_jpeg = 0)
    (h2 : e.format_create = 0)
    (h3 : e.set_video_mime = 0)
    (h4 : e.set_video_width = 0)
    (h5 : e.set_video_height = 0)
    (h6 : e.packet_create_alloc = 0)
    (h7 : e.get_buffer_data_ptr = 0 ∧ e.packet_buffer ≠ none)
    (h8 : e.transform_create = 0)
    (h9 : check_error_returns = false ∨ e.set_hardware_acceleration = 0)
    (h10 : e.set_colorspace ≠ 0) :
    start_file check_error_returns e s =
      ({ s with
        trace := s.trace ++
          ([Event.lstat e.d_name,
            Event.PRINT_MSG "img: %s" [LogArg.str e.d_name],
            Event.image_util_decode_jpeg (snprintf BUFLEN (s.resource_path ++ "/" ++ e.d_name))
             IMAGE_UTIL_COLORSPACE_RGB888 (some s.next_id),
            Event.DLOG_PRINT_DEBUG_MSG "Decoded image width: %d height: %d size %d"
             [LogArg.int e.width, LogArg.int e.height, LogArg.int e.size_decode],
            Event.media_format_create (some (s.next_id + 1)),
            Event.media_format_set_video_mime (s.next_id + 1) MEDIA_FORMAT_RGB888,
            Event.media_format_set_video_width (s.next_id + 1) e.width,
            Event.media_format_set_video_height (s.next_id + 1) e.height,
            Event.media_packet_create_alloc (s.next_id + 1) (some (s.next_id + 2)),
            Event.media_format_unref (s.next_id + 1),
            Event.media_packet_get_buffer_data_ptr (some (s.next_id + 2)),
            Event.memcpy e.packet_buffer s.next_id e.size_decode,
            Event.free s.next_id,
            Event.image_util_transform_create (some (s.next_id + 3)),
            Event.image_util_transform_set_hardware_acceleration (some (s.next_id + 3)) false] ++
          (if e.set_hardware_acceleration ≠ 0 then
            [Event.DLOG_PRINT_ERROR "image_util_transform_set_hardware_acceleration"
             e.set_hardware_acceleration]
           else []) ++
          [Event.PRINT_MSG "<b>Converting the image color space.</b>" [],
           Event.DLOG_PRINT_DEBUG_MSG "Converting the image color space." [],
           Event.image_util_transform_set_colorspace (some (s.next_id + 3)) IMAGE_UTIL_COLORSPACE_NV12,
           Event.PRINT_MSG "image_util_transform_set_colorspace() failed." [],
           Event.DLOG_PRINT_ERROR "image_util_transform_set_colorspace" e.set_colorspace]),
        next_id := s.next_id + 4,
        media_packet := some (s.next_id + 2),
        handle := some (s.next_id + 3) },
       Flow.returned) := by
  obtain ⟨h7, h7b⟩ := h7
  have hw : e.set_hardware_acceleration = 0 ∨
      (e.set_hardware_acceleration ≠ 0 ∧ check_error_returns = false) := by
    by_cases h0 : e.set_hardware_acceleration = 0
    · exact Or.inl h0
    · exact Or.inr ⟨h0, h9.resolve_right h0⟩
  rcases hw with h9 | ⟨h9, h9b⟩
  · simp [start_file, start_packet, start_transform, CHECK_ERROR, _map_colorspace,
      hd, h1, h2, h3, h4, h5, h6, h7, h7b, h8, h10, h9]
    apply State.ext <;> simp
  · simp [start_file, start_packet, start_transform, CHECK_ERROR, _map_colorspace,
      hd, h1, h2, h3, h4, h5, h6, h7, h7b, h8, h10, h9, h9b]
    apply State.ext <;> simp

/-- The loop body on a file for which `image_util_transform_set_resolution` fails. -/
theorem start_file_set_resolution_failed (check_error_returns : Bool) (e : dirent_env) (s : State)
    (hd : e.st_isdir = false)
    (h1 : e.decode_jpeg = 0)
    (h2 : e.format_create = 0)
    (h3 : e.set_video_mime = 0)
    (h4 : e.set_video_width = 0)
    (h5 : e.set_video_height = 0)
    (h6 : e.packet_create_alloc = 0)
    (h7 : e.get_buffer_data_ptr = 0 ∧ e.packet_buffer ≠ none)
    (h8 : e.transform_create = 0)
    (h9 : check_error_returns = false ∨ e.set_hardware_acceleration = 0)
    (h10 : e.set_colorspace = 0)
    (h11 : e.set_resolution (to_unsigned (atoi s.s_info_width))
      (to_unsigned (atoi s.s_info_height)) ≠ 0) :
    start_file check_error_returns e s =
      ({ s with
        trace := s.trace ++
          ([Event.lstat e.d_name,
            Event.PRINT_MSG "img: %s" [LogArg.str e.d_name],
            Event.image_util_decode_jpeg (snprintf BUFLEN (s.resource_path ++ "/" ++ e.d_name))
             IMAGE_UTIL_COLORSPACE_RGB888 (some s.next_id),
            Event.DLOG_PRINT_DEBUG_MSG "Decoded image width: %d height: %d size %d"
             [LogArg.int e.width, LogArg.int e.height, LogArg.int e.size_decode],
            Event.media_format_create (some (s.next_id + 1)),
            Event.media_format_set_video_mime (s.next_id + 1) MEDIA_FORMAT_RGB888,
            Event.media_format_set_video_width (s.next_id + 1) e.width,
            Event.media_format_set_video_height (s.next_id + 1) e.height,
            Event.media_packet_create_alloc (s.next_id + 1) (some (s.next_id + 2)),
            Event.media_format_unref (s.next_id + 1),
            Event.media_packet_get_buffer_data_ptr (some (s.next_id + 2)),
            Event.memcpy e.packet_buffer s.next_id e.size_decode,
            Event.free s.next_id,
            Event.image_util_transform_create (some (s.next_id + 3)),
            Event.image_util_transform_set_hardware_acceleration (some (s.next_id + 3)) false] ++
          (if e.set_hardware_acceleration ≠ 0 then
            [Event.DLOG_PRINT_ERROR "image_util_transform_set_hardware_acceleration"
             e.set_hardware_acceleration]
           else []) ++
          [Event.PRINT_MSG "<b>Converting the image color space.</b>" [],
           Event.DLOG_PRINT_DEBUG_MSG "Converting the image color space." [],
           Event.image_util_transform_set_colorspace (some (s.next_id + 3)) IMAGE_UTIL_COLORSPACE_NV12,
           Event.PRINT_MSG "Color space set to %s" [LogArg.str "IMAGE_UTIL_COLORSPACE_NV12"],
           Event.image_util_transform_set_resolution (some (s.next_id + 3))
             (to_unsigned (atoi s.s_info_width)) (to_unsigned (atoi s.s_info_height)),
           Event.PRINT_MSG "image_util_transform_set_resolution() failed." [],
           Event.DLOG_PRINT_ERROR "image_util_transform_set_resolution" (e.set_resolution (to_unsigned (atoi s.s_info_width))
             (to_unsigned (atoi s.s_info_height)))]),
        next_id := s.next_id + 4,
        media_packet := some (s.next_id + 2),
        handle := some (s.next_id + 3) },
       Flow.returned) := by
  obtain ⟨h7, h7b⟩ := h7
  have hw : e.set_hardware_acceleration = 0 ∨
      (e.set_hardware_acceleration ≠ 0 ∧ check_error_returns = false) := by
    by_cases h0 : e.set_hardware_acceleration = 0
    · exact Or.inl h0
    · exact Or.inr ⟨h0, h9.resolve_right h0⟩
  rcases hw with h9 | ⟨h9, h9b⟩
  · simp [start_file, start_packet, start_transform, CHECK_ERROR, _map_colorspace,
      hd, h1, h2, h3, h4, h5, h6, h7, h7b, h8, h10, h11, h9]
    apply State.ext <;> simp
  · simp [start_file, start_packet, start_transform, CHECK_ERROR, _map_colorspace,
      hd, h1, h2, h3, h4, h5, h6, h7, h7b, h8, h10, h11, h9, h9b]
    apply State.ext <;> simp

/-- The loop body on a file for which `image_util_transform_run` fails. -/
theorem start_file_transform_run_failed (check_error_returns : Bool) (e : dirent_env) (s : State)
    (hd : e.st_isdir = false)
    (h1 : e.decode_jpeg = 0)
    (h2 : e.format_create = 0)
    (h3 : e.set_video_mime = 0)
    (h4 : e.set_video_width = 0)
    (h5 : e.set_video_height = 0)
    (h6 : e.packet_create_alloc = 0)
    (h7 : e.get_buffer_data_ptr = 0 ∧ e.packet_buffer ≠ none)
    (h8 : e.transform_create = 0)
    (h9 : check_error_returns = false ∨ e.set_hardware_acceleration = 0)
    (h10 : e.set_colorspace = 0)
    (h11 : e.set_resolution (to_unsigned (atoi s.s_info_width))
      (to_unsigned (atoi s.s_info_height)) = 0)
    (h12 : e.transform_run ≠ 0) :
    start_file check_error_returns e s =
      ({ s with
        trace := s.trace ++
          ([Event.lstat e.d_name,
            Event.PRINT_MSG "img: %s" [LogArg.str e.d_name],
            Event.image_util_decode_jpeg (snprintf BUFLEN (s.resource_path ++ "/" ++ e.d_name))
             IMAGE_UTIL_COLORSPACE_RGB888 (some s.next_id),
            Event.DLOG_PRINT_DEBUG_MSG "Decoded image width: %d height: %d size %d"
             [LogArg.int e.width, LogArg.int e.height, LogArg.int e.size_decode],
            Event.media_format_create (some (s.next_id + 1)),
            Event.media_format_set_video_mime (s.next_id + 1) MEDIA_FORMAT_RGB888,
            Event.media_format_set_video_width (s.next_id + 1) e.width,
            Event.media_format_set_video_height (s.next_id + 1) e.height,
            Event.media_packet_create_alloc (s.next_id + 1) (some (s.next_id + 2)),
            Event.media_format_unref (s.next_id + 1),
            Event.media_packet_get_buffer_data_ptr (some (s.next_id + 2)),
            Event.memcpy e.packet_buffer s.next_id e.size_decode,
            Event.free s.next_id,
            Event.image_util_transform_create (some (s.next_id + 3)),
            Event.image_util_transform_set_hardware_acceleration (some (s.next_id + 3)) false] ++
          (if e.set_hardware_acceleration ≠ 0 then
            [Event.DLOG_PRINT_ERROR "image_util_transform_set_hardware_acceleration"
             e.set_hardware_acceleration]
           else []) ++
          [Event.PRINT_MSG "<b>Converting the image color space.</b>" [],
           Event.DLOG_PRINT_DEBUG_MSG "Converting the image color space." [],
           Event.image_util_transform_set_colorspace (some (s.next_id + 3)) IMAGE_UTIL_COLORSPACE_NV12,
           Event.PRINT_MSG "Color space set to %s" [LogArg.str "IMAGE_UTIL_COLORSPACE_NV12"],
           Event.image_util_transform_set_resolution (some (s.next_id + 3))
             (to_unsigned (atoi s.s_info_width)) (to_unsigned (atoi s.s_info_height)),
           Event.PRINT_MSG "New resolution is:%dx%d"
             [LogArg.int (to_unsigned (atoi s.s_info_width)), LogArg.int (to_unsigned (atoi s.s_info_height))],
           Event.image_util_transform_run (some (s.next_id + 3)) (some (s.next_id + 2))
             transform_completed_cb._image_util_completed_cb,
           Event.PRINT_MSG "image_util_transform_run() failed." [],
           Event.DLOG_PRINT_ERROR "image_util_transform_run" e.transform_run]),
        next_id := s.next_id + 4,
        media_packet := some (s.next_id + 2),
        handle := some (s.next_id + 3),
        image_util_filename_encoded := snprintf BUFLEN (s.images_directory ++ "/" ++ e.d_name) },
       Flow.next) := by
  obtain ⟨h7, h7b⟩ := h7
  have hw : e.set_hardware_acceleration = 0 ∨
      (e.set_hardware_acceleration ≠ 0 ∧ check_error_returns = false) := by
    by_cases h0 : e.set_hardware_acceleration = 0
    · exact Or.inl h0
    · exact Or.inr ⟨h0, h9.resolve_right h0⟩
  rcases hw with h9 | ⟨h9, h9b⟩
  · simp [start_file, start_packet, start_transform, CHECK_ERROR, _map_colorspace,
      hd, h1, h2, h3, h4, h5, h6, h7, h7b, h8, h10, h11, h12, h9]
    apply State.ext <;> simp
  · simp [start_file, start_packet, start_transform, CHECK_ERROR, _map_colorspace,
      hd, h1, h2, h3, h4, h5, h6, h7, h7b, h8, h10, h11, h12, h9, h9b]
    apply State.ext <;> simp

/-- The loop body on a file for which every call succeeds. -/
theorem start_file_all_ok (check_error_returns : Bool) (e : dirent_env) (s : State)
    (hd : e.st_isdir = false)
    (h1 : e.decode_jpeg = 0)
    (h2 : e.format_create = 0)
    (h3 : e.set_video_mime = 0)
    (h4 : e.set_video_width = 0)
    (h5 : e.set_video_height = 0)
    (h6 : e.packet_create_alloc = 0)
    (h7 : e.get_buffer_data_ptr = 0 ∧ e.packet_buffer ≠ none)
    (h8 : e.transform_create = 0)
    (h9 : check_error_returns = false ∨ e.set_hardware_acceleration = 0)
    (h10 : e.set_colorspace = 0)
    (h11 : e.set_resolution (to_unsigned (atoi s.s_info_width))
      (to_unsigned (atoi s.s_info_height)) = 0)
    (h12 : e.transform_run = 0) :
    start_file check_error_returns e s =
      ({ s with
        trace := s.trace ++
          ([Event.lstat e.d_name,
            Event.PRINT_MSG "img: %s" [LogArg.str e.d_name],
            Event.image_util_decode_jpeg (snprintf BUFLEN (s.resource_path ++ "/" ++ e.d_name))
             IMAGE_UTIL_COLORSPACE_RGB888 (some s.next_id),
            Event.DLOG_PRINT_DEBUG_MSG "Decoded image width: %d height: %d size %d"
             [LogArg.int e.width, LogArg.int e.height, LogArg.int e.size_decode],
            Event.media_format_create (some (s.next_id + 1)),
            Event.media_format_set_video_mime (s.next_id + 1) MEDIA_FORMAT_RGB888,
            Event.media_format_set_video_width (s.next_id + 1) e.width,
            Event.media_format_set_video_height (s.next_id + 1) e.height,
            Event.media_packet_create_alloc (s.next_id + 1) (some (s.next_id + 2)),
            Event.media_format_unref (s.next_id + 1),
            Event.media_packet_get_buffer_data_ptr (some (s.next_id + 2)),
            Event.memcpy e.packet_buffer s.next_id e.size_decode,
            Event.free s.next_id,
            Event.image_util_transform_create (some (s.next_id + 3)),
            Event.image_util_transform_set_hardware_acceleration (some (s.next_id + 3)) false] ++
          (if e.set_hardware_acceleration ≠ 0 then
            [Event.DLOG_PRINT_ERROR "image_util_transform_set_hardware_acceleration"
             e.set_hardware_acceleration]
           else []) ++
          [Event.PRINT_MSG "<b>Converting the image color space.</b>" [],
           Event.DLOG_PRINT_DEBUG_MSG "Converting the image color space." [],
           Event.image_util_transform_set_colorspace (some (s.next_id + 3)) IMAGE_UTIL_COLORSPACE_NV12,
           Event.PRINT_MSG "Color space set to %s" [LogArg.str "IMAGE_UTIL_COLORSPACE_NV12"],
           Event.image_util_transform_set_resolution (some (s.next_id + 3))
             (to_unsigned (atoi s.s_info_width)) (to_unsigned (atoi s.s_info_height)),
           Event.PRINT_MSG "New resolution is:%dx%d"
             [LogArg.int (to_unsigned (atoi s.s_info_width)), LogArg.int (to_unsigned (atoi s.s_info_height))],
           Event.image_util_transform_run (some (s.next_id + 3)) (some (s.next_id + 2))
             transform_completed_cb._image_util_completed_cb]),
        next_id := s.next_id + 4,
        media_packet := some (s.next_id + 2),
        handle := some (s.next_id + 3),
        image_util_filename_encoded := snprintf BUFLEN (s.images_directory ++ "/" ++ e.d_name) },
       Flow.next) := by
  obtain ⟨h7, h7b⟩ := h7
  have hw : e.set_hardware_acceleration = 0 ∨
      (e.set_hardware_acceleration ≠ 0 ∧ check_error_returns = false) := by
    by_cases h0 : e.set_hardware_acceleration = 0
    · exact Or.inl h0
    · exact Or.inr ⟨h0, h9.resolve_right h0⟩
  rcases hw with h9 | ⟨h9, h9b⟩
  · simp [start_file, start_packet, start_transform, CHECK_ERROR, _map_colorspace,
      hd, h1, h2, h3, h4, h5, h6, h7, h7b, h8, h10, h11, h12, h9]
    apply State.ext <;> simp
  · simp [start_file, start_packet, start_transform, CHECK_ERROR, _map_colorspace,
      hd, h1, h2, h3, h4, h5, h6, h7, h7b, h8, h10, h11, h12, h9, h9b]
    apply State.ext <;> simp

/-! ## The handler as a whole -/

/-- The button loop of the handlers adds one `_disable_button` call per button. -/
theorem disable_buttons_trace (disabled : Bool) (s : State) :
    (disable_buttons_from disabled BUTTON_COUNT 0 s).trace = s.trace ++
      [Event._disable_button 0 disabled, Event._disable_button 1 disabled,
       Event._disable_button 2 disabled, Event._disable_button 3 disabled] := by
  simp [disable_buttons_from, BUTTON_COUNT, _disable_button]

/-- C1: when `opendir` returns `NULL`, `_image_util_start_cb` only disables the buttons,
logs, and returns: from every state, the calls it adds to the trace are exactly the four
`_disable_button` calls, the `opendir` and three log lines, so none of them is a call on
a pipeline object (no decode, format, packet or transform call for any file). -/
theorem start_cb_opendir_null (check_error_returns : Bool) (s : State) :
    (_image_util_start_cb check_error_returns none s).trace = s.trace ++
      [Event._disable_button 0 true, Event._disable_button 1 true,
       Event._disable_button 2 true, Event._disable_button 3 true,
       Event.PRINT_MSG "Running transforming!" [],
       Event.opendir s.resource_path,
       Event.DLOG_PRINT_ERROR "Cannot open resource_path" 0,
       Event.PRINT_MSG "Cannot open resource_path" []] ∧
    (new_events s (_image_util_start_cb check_error_returns none s)).filter
      Event.is_pipeline_call = [] := by
  have h : (_image_util_start_cb check_error_returns none s).trace = s.trace ++
      [Event._disable_button 0 true, Event._disable_button 1 true,
       Event._disable_button 2 true, Event._disable_button 3 true,
       Event.PRINT_MSG "Running transforming!" [],
       Event.opendir s.resource_path,
       Event.DLOG_PRINT_ERROR "Cannot open resource_path" 0,
       Event.PRINT_MSG "Cannot open resource_path" []] := by
    simp [_image_util_start_cb, disable_buttons_from, BUTTON_COUNT, _disable_button]
  refine ⟨h, ?_⟩
  rw [new_events, h, List.drop_left]
  rfl

/-- The loop body returns when a call before `image_util_transform_run` fails. -/
theorem start_file_returns_on_failure (check_error_returns : Bool) (e : dirent_env)
    (s : State) (hd : e.st_isdir = false)
    (hfail : e.decode_jpeg ≠ 0 ∨ e.format_create ≠ 0 ∨ e.set_video_mime ≠ 0 ∨
      e.set_video_width ≠ 0 ∨ e.set_video_height ≠ 0 ∨ e.packet_create_alloc ≠ 0 ∨
      e.get_buffer_data_ptr ≠ 0 ∨ e.transform_create ≠ 0 ∨ e.set_colorspace ≠ 0 ∨
      e.set_resolution (to_unsigned (atoi s.s_info_width))
        (to_unsigned (atoi s.s_info_height)) ≠ 0) :
    (start_file check_error_returns e s).2 = Flow.returned := by
  by_cases h1 : e.decode_jpeg = 0
  swap
  · rw [start_file_decode_failed check_error_returns e s hd h1]
  by_cases h2 : e.format_create = 0
  swap
  · rw [start_file_format_create_failed check_error_returns e s hd h1 h2]
  by_cases h3 : e.set_video_mime = 0
  swap
  · rw [start_file_set_video_mime_failed check_error_returns e s hd h1 h2 h3]
  by_cases h4 : e.set_video_width = 0
  swap
  · rw [start_file_set_video_width_failed check_error_returns e s hd h1 h2 h3 h4]
  by_cases h5 : e.set_video_height = 0
  swap
  · rw [start_file_set_video_height_failed check_error_returns e s hd h1 h2 h3 h4 h5]
  by_cases h6 : e.packet_create_alloc = 0
  swap
  · rw [start_file_packet_create_alloc_failed check_error_returns e s hd h1 h2 h3 h4 h5 h6]
  by_cases h7 : e.get_buffer_data_ptr = 0 ∧ e.packet_buffer ≠ none
  swap
  · rw [start_file_get_buffer_failed check_error_returns e s hd h1 h2 h3 h4 h5 h6
      (by by_cases hb : e.get_buffer_data_ptr = 0
          · exact Or.inr (by_contra fun hn => h7 ⟨hb, hn⟩)
          · exact Or.inl hb)]
  by_cases h8 : e.transform_create = 0
  swap
  · rw [start_file_transform_create_failed check_error_returns e s hd h1 h2 h3 h4 h5 h6 h7 h8]
  by_cases h9 : check_error_returns = true ∧ e.set_hardware_acceleration ≠ 0
  · rw [start_file_check_error_returned check_error_returns e s hd h1 h2 h3 h4 h5 h6 h7 h8 h9]
  have h9 : check_error_returns = false ∨ e.set_hardware_acceleration = 0 := by
    by_cases hc : check_error_returns = true
    · exact Or.inr (by_contra fun hn => h9 ⟨hc, hn⟩)
    · exact Or.inl (by simpa using hc)
  by_cases h10 : e.set_colorspace = 0
  swap
  · rw [start_file_set_colorspace_failed check_error_returns e s hd h1 h2 h3 h4 h5 h6 h7 h8
      h9 h10]
  by_cases h11 : e.set_resolution (to_unsigned (atoi s.s_info_width))
      (to_unsigned (atoi s.s_info_height)) = 0
  swap
  · rw [start_file_set_resolution_failed check_error_returns e s hd h1 h2 h3 h4 h5 h6 h7 h8
      h9 h10 h11]
  exfalso
  rcases hfail with h | h | h | h | h | h | h | h | h | h
  · exact h h1
  · exact h h2
  · exact h h3
  · exact h h4
  · exact h h5
  · exact h h6
  · exact h h7.1
  · exact h h8
  · exact h h10
  · exact h h11

/-- The paths through the loop body: the entry is a directory, or the first call that
stops the pass is one of eleven, or the pass reaches `image_util_transform_run`. -/
theorem start_file_path (check_error_returns : Bool) (e : dirent_env) (s : State) :
    e.st_isdir = true ∨ (e.st_isdir = false ∧
    (e.decode_jpeg ≠ 0 ∨ (e.decode_jpeg = 0 ∧
    (e.format_create ≠ 0 ∨ (e.format_create = 0 ∧
    (e.set_video_mime ≠ 0 ∨ (e.set_video_mime = 0 ∧
    (e.set_video_width ≠ 0 ∨ (e.set_video_width = 0 ∧
    (e.set_video_height ≠ 0 ∨ (e.set_video_height = 0 ∧
    (e.packet_create_alloc ≠ 0 ∨ (e.packet_create_alloc = 0 ∧
    ((e.get_buffer_data_ptr ≠ 0 ∨ e.packet_buffer = none) ∨
      ((e.get_buffer_data_ptr = 0 ∧ e.packet_buffer ≠ none) ∧
    (e.transform_create ≠ 0 ∨ (e.transform_create = 0 ∧
    ((check_error_returns = true ∧ e.set_hardware_acceleration ≠ 0) ∨
      ((check_error_returns = false ∨ e.set_hardware_acceleration = 0) ∧
    (e.set_colorspace ≠ 0 ∨ (e.set_colorspace = 0 ∧
    (e.set_resolution (to_unsigned (atoi s.s_info_width))
        (to_unsigned (atoi s.s_info_height)) ≠ 0 ∨
      (e.set_resolution (to_unsigned (atoi s.s_info_width))
        (to_unsigned (atoi s.s_info_height)) = 0 ∧
    (e.transform_run ≠ 0 ∨ e.transform_run = 0)))))))))))))))))))))))) := by
  cases check_error_returns <;> cases e.st_isdir <;> simp only [true_or, or_true, true_and,
    and_true, false_and, false_or, or_false, Bool.false_eq_true, ne_eq, reduceCtorEq,
    not_false_eq_true, not_true_eq_false] <;> tauto

/-- The loop body leaves the entry texts and the two directory paths unchanged, and only
adds calls at the end of the trace. -/
theorem start_file_frame (check_error_returns : Bool) (e : dirent_env) (s : State) :
    (start_file check_error_returns e s).1.s_info_width = s.s_info_width ∧
    (start_file check_error_returns e s).1.s_info_height = s.s_info_height ∧
    (start_file check_error_returns e s).1.resource_path = s.resource_path ∧
    (start_file check_error_returns e s).1.images_directory = s.images_directory ∧
    (start_file check_error_returns e s).1.trace =
      s.trace ++ new_events s (start_file check_error_returns e s).1 := by
  rcases start_file_path check_error_returns e s with hd | ⟨hd, h1 | ⟨h1, h2 | ⟨h2,
    h3 | ⟨h3, h4 | ⟨h4, h5 | ⟨h5, h6 | ⟨h6, h7 | ⟨h7, h8 | ⟨h8, h9 | ⟨h9, h10 | ⟨h10,
    h11 | ⟨h11, h12 | h12⟩⟩⟩⟩⟩⟩⟩⟩⟩⟩⟩⟩
  all_goals first
    | rw [start_file_directory check_error_returns e s hd]
    | rw [start_file_decode_failed check_error_returns e s hd h1]
    | rw [start_file_format_create_failed check_error_returns e s hd h1 h2]
    | rw [start_file_set_video_mime_failed check_error_returns e s hd h1 h2 h3]
    | rw [start_file_set_video_width_failed check_error_returns e s hd h1 h2 h3 h4]
    | rw [start_file_set_video_height_failed check_error_returns e s hd h1 h2 h3 h4 h5]
    | rw [start_file_packet_create_alloc_failed check_error_returns e s hd h1 h2 h3 h4 h5 h6]
    | rw [start_file_get_buffer_failed check_error_returns e s hd h1 h2 h3 h4 h5 h6 h7]
    | rw [start_file_transform_create_failed check_error_returns e s hd h1 h2 h3 h4 h5 h6 h7
        h8]
    | rw [start_file_check_error_returned check_error_returns e s hd h1 h2 h3 h4 h5 h6 h7 h8
        h9]
    | rw [start_file_set_colorspace_failed check_error_returns e s hd h1 h2 h3 h4 h5 h6 h7 h8
        h9 h10]
    | rw [start_file_set_resolution_failed check_error_returns e s hd h1 h2 h3 h4 h5 h6 h7 h8
        h9 h10 h11]
    | rw [start_file_transform_run_failed check_error_returns e s hd h1 h2 h3 h4 h5 h6 h7 h8
        h9 h10 h11 h12]
    | rw [start_file_all_ok check_error_returns e s hd h1 h2 h3 h4 h5 h6 h7 h8 h9 h10 h11 h12]
  all_goals simp [new_events]

/-- Calls made over two consecutive stretches are the calls of the first stretch followed
by the calls of the second. -/
theorem new_events_append (s t u : State) (hst : t.trace = s.trace ++ new_events s t)
    (htu : u.trace = t.trace ++ new_events t u) :
    u.trace = s.trace ++ new_events s u ∧
    new_events s u = new_events s t ++ new_events t u := by
  have h : u.trace = s.trace ++ (new_events s t ++ new_events t u) := by
    rw [htu]
    conv_lhs => rw [hst]
    rw [List.append_assoc]
  have h2 : new_events s u = new_events s t ++ new_events t u := by
    conv_lhs => rw [new_events, h, List.drop_left]
  exact ⟨by rw [h2]; exact h, h2⟩

/-- The number of `image_util_decode_jpeg` calls of the loop body is
one for a file and zero for a directory. -/
theorem start_file_decode_count (check_error_returns : Bool) (e : dirent_env) (s : State) :
    (new_events s (start_file check_error_returns e s).1).countP Event.is_decode =
      if e.st_isdir then 0 else 1 := by
  rcases start_file_path check_error_returns e s with hd | ⟨hd, h1 | ⟨h1, h2 | ⟨h2,
    h3 | ⟨h3, h4 | ⟨h4, h5 | ⟨h5, h6 | ⟨h6, h7 | ⟨h7, h8 | ⟨h8, h9 | ⟨h9, h10 | ⟨h10,
    h11 | ⟨h11, h12 | h12⟩⟩⟩⟩⟩⟩⟩⟩⟩⟩⟩⟩
  all_goals first
    | rw [start_file_directory check_error_returns e s hd]
    | rw [start_file_decode_failed check_error_returns e s hd h1]
    | rw [start_file_format_create_failed check_error_returns e s hd h1 h2]
    | rw [start_file_set_video_mime_failed check_error_returns e s hd h1 h2 h3]
    | rw [start_file_set_video_width_failed check_error_returns e s hd h1 h2 h3 h4]
    | rw [start_file_set_video_height_failed check_error_returns e s hd h1 h2 h3 h4 h5]
    | rw [start_file_packet_create_alloc_failed check_error_returns e s hd h1 h2 h3 h4 h5 h6]
    | rw [start_file_get_buffer_failed check_error_returns e s hd h1 h2 h3 h4 h5 h6 h7]
    | rw [start_file_transform_create_failed check_error_returns e s hd h1 h2 h3 h4 h5 h6 h7
        h8]
    | rw [start_file_check_error_returned check_error_returns e s hd h1 h2 h3 h4 h5 h6 h7 h8
        h9]
    | rw [start_file_set_colorspace_failed check_error_returns e s hd h1 h2 h3 h4 h5 h6 h7 h8
        h9 h10]
    | rw [start_file_set_resolution_failed check_error_returns e s hd h1 h2 h3 h4 h5 h6 h7 h8
        h9 h10 h11]
    | rw [start_file_transform_run_failed check_error_returns e s hd h1 h2 h3 h4 h5 h6 h7 h8
        h9 h10 h11 h12]
    | rw [start_file_all_ok check_error_returns e s hd h1 h2 h3 h4 h5 h6 h7 h8 h9 h10 h11 h12]
  all_goals simp only [new_events, List.drop_left, hd]
  all_goals simp [Event.is_decode, List.countP_cons, List.countP_append]

/-- The loop leaves the entry texts unchanged, only adds calls at the end of the trace,
and decodes at most once per entry that is not a directory. -/
theorem start_loop_frame (check_error_returns : Bool) (entries : List dirent_env) :
    ∀ s : State,
    (start_loop check_error_returns entries s).s_info_width = s.s_info_width ∧
    (start_loop check_error_returns entries s).s_info_height = s.s_info_height ∧
    (start_loop check_error_returns entries s).trace =
      s.trace ++ new_events s (start_loop check_error_returns entries s) ∧
    (new_events s (start_loop check_error_returns entries s)).countP Event.is_decode ≤
      entries.countP (fun x => !x.st_isdir) := by
  induction entries with
  | nil =>
    intro s
    simp [start_loop, new_events]
  | cons x rest ih =>
    intro s
    have hf := start_file_frame check_error_returns x s
    have hc := start_file_decode_count check_error_returns x s
    have hx : (if x.st_isdir = true then 0 else 1) =
        List.countP (fun x => !x.st_isdir) [x] := by
      cases h : x.st_isdir <;> simp [h]
    rw [hx] at hc
    have hsplit : List.countP (fun x => !x.st_isdir) (x :: rest) =
        List.countP (fun x => !x.st_isdir) [x] + List.countP (fun x => !x.st_isdir) rest := by
      rw [← List.countP_append]
      rfl
    simp only [start_loop]
    cases hres : start_file check_error_returns x s with
    | mk s1 flow =>
      rw [hres] at hf hc
      simp only at hf hc
      cases flow with
      | returned =>
        simp only
        refine ⟨hf.1, hf.2.1, hf.2.2.2.2, ?_⟩
        rw [hsplit, hc]
        exact Nat.le_add_right _ _
      | next =>
        simp only
        have h1 := ih s1
        have happ := new_events_append s s1 (start_loop check_error_returns rest s1)
          hf.2.2.2.2 h1.2.2.1
        refine ⟨h1.1.trans hf.1, h1.2.1.trans hf.2.1, happ.1, ?_⟩
        rw [happ.2, List.countP_append, hsplit, hc]
        exact Nat.add_le_add_left h1.2.2.2 _

/-- Once the loop body returns for an entry, the entries after it are never reached. -/
theorem start_loop_stops (check_error_returns : Bool) (e : dirent_env) (w h : String)
    (hret : ∀ t : State, t.s_info_width = w → t.s_info_height = h →
      (start_file check_error_returns e t).2 = Flow.returned)
    (pre post : List dirent_env) :
    ∀ s : State, s.s_info_width = w → s.s_info_height = h →
      start_loop check_error_returns (pre ++ e :: post) s =
        start_loop check_error_returns (pre ++ [e]) s := by
  induction pre with
  | nil =>
    intro s hw hh
    have hr := hret s hw hh
    simp only [List.nil_append, start_loop]
    cases hres : start_file check_error_returns e s with
    | mk s1 flow =>
      rw [hres] at hr
      simp only at hr
      subst hr
      rfl
  | cons x rest ih =>
    intro s hw hh
    have hf := start_file_frame check_error_returns x s
    simp only [List.cons_append, start_loop]
    cases hres : start_file check_error_returns x s with
    | mk s1 flow =>
      rw [hres] at hf
      simp only at hf
      cases flow with
      | next => exact ih s1 (hf.1.trans hw) (hf.2.1.trans hh)
      | returned => rfl

/-- The handler with an open directory: the prologue, then the loop. -/
theorem start_cb_some (check_error_returns : Bool) (s : State) :
    ∃ s0 : State, s0.s_info_width = s.s_info_width ∧ s0.s_info_height = s.s_info_height ∧
      s0.trace = s.trace ++ new_events s s0 ∧
      (new_events s s0).countP Event.is_decode = 0 ∧
      ∀ l, _image_util_start_cb check_error_returns (some l) s =
        start_loop check_error_returns l s0 := by
  refine ⟨((disable_buttons_from true BUTTON_COUNT 0
    { s with transform_finished := false }).emit
      (Event.PRINT_MSG "Running transforming!" [])).emit (Event.opendir s.resource_path),
    ?_, ?_, ?_, ?_, ?_⟩
  · simp [disable_buttons_from, BUTTON_COUNT, _disable_button]
  · simp [disable_buttons_from, BUTTON_COUNT, _disable_button]
  · simp [disable_buttons_from, BUTTON_COUNT, _disable_button, new_events]
  · simp [disable_buttons_from, BUTTON_COUNT, _disable_button, new_events, Event.is_decode]
  · intro l
    simp [_image_util_start_cb, disable_buttons_from, BUTTON_COUNT, _disable_button]

/-- The error branches that end in `return`: for every directory listing and every
assignment of SDK return codes, a file for which the decode, a format call, the packet
creation, the buffer pointer call, the transform creation, the colour space call or the
resolution call returns a non-success code ends the whole scan: the handler finishes
exactly as if the listing had ended with that file, and it decodes at most once per
non-directory entry up to and including it, so no later entry is decoded. -/
theorem start_cb_stops_at_failing_file (check_error_returns : Bool)
    (pre post : List dirent_env) (e : dirent_env) (s : State) (hd : e.st_isdir = false)
    (hfail : e.decode_jpeg ≠ 0 ∨ e.format_create ≠ 0 ∨ e.set_video_mime ≠ 0 ∨
      e.set_video_width ≠ 0 ∨ e.set_video_height ≠ 0 ∨ e.packet_create_alloc ≠ 0 ∨
      e.get_buffer_data_ptr ≠ 0 ∨ e.transform_create ≠ 0 ∨ e.set_colorspace ≠ 0 ∨
      e.set_resolution (to_unsigned (atoi s.s_info_width))
        (to_unsigned (atoi s.s_info_height)) ≠ 0) :
    _image_util_start_cb check_error_returns (some (pre ++ e :: post)) s =
      _image_util_start_cb check_error_returns (some (pre ++ [e])) s ∧
    (new_events s (_image_util_start_cb check_error_returns
      (some (pre ++ e :: post)) s)).countP Event.is_decode ≤
      (pre ++ [e]).countP (fun x => !x.st_isdir) := by
  obtain ⟨s0, hw, hh, htr, hdec, hcb⟩ := start_cb_some check_error_returns s
  have hstop : start_loop check_error_returns (pre ++ e :: post) s0 =
      start_loop check_error_returns (pre ++ [e]) s0 := by
    refine start_loop_stops check_error_returns e s.s_info_width s.s_info_height ?_ pre post
      s0 hw hh
    intro t htw hth
    refine start_file_returns_on_failure check_error_returns e t hd ?_
    rw [htw, hth]
    exact hfail
  have heq : _image_util_start_cb check_error_returns (some (pre ++ e :: post)) s =
      _image_util_start_cb check_error_returns (some (pre ++ [e])) s := by
    rw [hcb, hcb, hstop]
  refine ⟨heq, ?_⟩
  rw [heq, hcb]
  have hl := start_loop_frame check_error_returns (pre ++ [e]) s0
  have happ := new_events_append s s0 (start_loop check_error_returns (pre ++ [e]) s0)
    htr hl.2.2.1
  rw [happ.2, List.countP_append, hdec, Nat.zero_add]
  exact hl.2.2.2

/-- An instance of the returning error branches: with `b.jpg` failing to decode between
`a.jpg` and `c.jpg`, the scan ends at `b.jpg`. -/
theorem start_cb_stops_at_failing_file_witness :
    (decode_fails_entry "b.jpg").st_isdir = false ∧
    (decode_fails_entry "b.jpg").decode_jpeg ≠ 0 ∧
    _image_util_start_cb false
        (some ([ok_entry "a.jpg"] ++ decode_fails_entry "b.jpg" :: [ok_entry "c.jpg"]))
        initial_state =
      _image_util_start_cb false (some ([ok_entry "a.jpg"] ++ [decode_fails_entry "b.jpg"]))
        initial_state ∧
    (new_events initial_state (_image_util_start_cb false
      (some ([ok_entry "a.jpg"] ++ decode_fails_entry "b.jpg" :: [ok_entry "c.jpg"]))
      initial_state)).countP Event.is_decode ≤
      ([ok_entry "a.jpg"] ++ [decode_fails_entry "b.jpg"]).countP (fun x => !x.st_isdir) :=
  ⟨rfl, by decide,
    start_cb_stops_at_failing_file false [ok_entry "a.jpg"] [ok_entry "c.jpg"]
      (decode_fails_entry "b.jpg") initial_state rfl (Or.inl (by decide))⟩

/-- C2, the code at the failing input: `image_util_transform_run` fails for `a.jpg`, the
first entry of the listing, and the scan is not aborted: `b.jpg`, the next entry, is
decoded (under either reading of `CHECK_ERROR`).  The error branch after
`image_util_transform_run` logs like the other error branches of the loop body but has
no `return`. -/
theorem transform_run_failure_does_not_stop_scan :
    (run_fails_entry "a.jpg").transform_run ≠ 0 ∧
    (new_events initial_state (_image_util_start_cb false
      (some [run_fails_entry "a.jpg", ok_entry "b.jpg"]) initial_state)).filter
        Event.is_decode =
      [Event.image_util_decode_jpeg "/opt/usr/apps/imageutil/res/a.jpg"
         IMAGE_UTIL_COLORSPACE_RGB888 (some 1),
       Event.image_util_decode_jpeg "/opt/usr/apps/imageutil/res/b.jpg"
         IMAGE_UTIL_COLORSPACE_RGB888 (some 5)] ∧
    (new_events initial_state (_image_util_start_cb true
      (some [run_fails_entry "a.jpg", ok_entry "b.jpg"]) initial_state)).filter
        Event.is_decode =
      [Event.image_util_decode_jpeg "/opt/usr/apps/imageutil/res/a.jpg"
         IMAGE_UTIL_COLORSPACE_RGB888 (some 1),
       Event.image_util_decode_jpeg "/opt/usr/apps/imageutil/res/b.jpg"
         IMAGE_UTIL_COLORSPACE_RGB888 (some 5)] := by
  refine ⟨by decide, ?_, ?_⟩ <;> with_unfolding_all rfl

/-- C3: in `_image_util_completed_cb` (called with a non-null `dst`), from every state and
for every answer of the SDK, `image_util_encode_jpeg` is called if and only if the
transform error code is success, `media_packet_get_format`, `media_format_get_video_info`
and `media_packet_get_buffer_data_ptr` succeed, and the output mimetype is
`MEDIA_FORMAT_NV12`; it is then called exactly once, with the output buffer, the width and
height of the output format, colour space NV12, quality 100 and the stored file name.  In
every other case (transform failure, another mimetype) the callback makes no encode call. -/
theorem completed_cb_encode_calls (packet : Option Nat) (error_code : Int)
    (env : completed_env) (s : State) :
    (_image_util_completed_cb (some packet) error_code env s).map
        (fun t => (new_events s t).filter Event.is_encode) =
      some (if error_code = IMAGE_UTIL_ERROR_NONE ∧ env.get_format = MEDIA_PACKET_ERROR_NONE ∧
          env.get_video_info = MEDIA_FORMAT_ERROR_NONE ∧
          env.get_buffer_data_ptr = MEDIA_PACKET_ERROR_NONE ∧
          env.mimetype = MEDIA_FORMAT_NV12 then
        [Event.image_util_encode_jpeg env.packet_buffer env.width env.height
          IMAGE_UTIL_COLORSPACE_NV12 100 s.image_util_filename_encoded]
      else []) := by
  by_cases h0 : error_code = 0
  swap
  · simp [_image_util_completed_cb, h0, new_events, Event.is_encode]
  by_cases h1 : env.get_format = 0
  swap
  · simp [_image_util_completed_cb, h0, h1, new_events, Event.is_encode]
  by_cases h2 : env.get_video_info = 0
  swap
  · simp [_image_util_completed_cb, h0, h1, h2, new_events, Event.is_encode]
  by_cases h3 : env.get_buffer_data_ptr = 0
  swap
  · simp [_image_util_completed_cb, h0, h1, h2, h3, new_events, Event.is_encode]
  by_cases h4 : env.mimetype = MEDIA_FORMAT_NV12
  swap
  · simp [_image_util_completed_cb, h0, h1, h2, h3, h4, new_events, Event.is_encode]
  by_cases h5 : env.encode_jpeg = 0
  · simp [_image_util_completed_cb, h0, h1, h2, h3, h4, h5, new_events, Event.is_encode]
  · simp [_image_util_completed_cb, h0, h1, h2, h3, h4, h5, new_events, Event.is_encode]

/-- C5: in the loop body of `_image_util_start_cb`, for every file whose decode succeeds
and every assignment of return codes to the later calls, the calls made for that file
contain exactly one `free`, of the decoded buffer `img_source`, and exactly one
`media_format_unref`, of the created format, when `media_format_create` succeeded (none
when it failed).  When the calls up to the buffer pointer succeed, the `memcpy` into the
packet buffer comes before the `free`, and the successful `media_packet_create_alloc`
comes before the `media_format_unref`. -/
theorem start_file_releases_once (check_error_returns : Bool) (e : dirent_env) (s : State)
    (hd : e.st_isdir = false) (h1 : e.decode_jpeg = 0) :
    (new_events s (start_file check_error_returns e s).1).filter Event.is_free =
      [Event.free s.next_id] ∧
    (new_events s (start_file check_error_returns e s).1).filter Event.is_format_unref =
      (if e.format_create = 0 then [Event.media_format_unref (s.next_id + 1)] else []) ∧
    (e.format_create = 0 → e.set_video_mime = 0 → e.set_video_width = 0 →
      e.set_video_height = 0 → e.packet_create_alloc = 0 → e.get_buffer_data_ptr = 0 →
      e.packet_buffer ≠ none →
      Event.memcpy e.packet_buffer s.next_id e.size_decode ∈
        (new_events s (start_file check_error_returns e s).1).takeWhile
          (fun ev => !ev.is_free) ∧
      Event.media_packet_create_alloc (s.next_id + 1) (some (s.next_id + 2)) ∈
        (new_events s (start_file check_error_returns e s).1).takeWhile
          (fun ev => !ev.is_format_unref)) := by
  have hd2 : ¬ e.st_isdir = true := by simp [hd]
  have h1n : ¬ e.decode_jpeg ≠ 0 := by simp [h1]
  rcases start_file_path check_error_returns e s with hd | ⟨hd, h1 | ⟨h1, h2 | ⟨h2,
    h3 | ⟨h3, h4 | ⟨h4, h5 | ⟨h5, h6 | ⟨h6, h7 | ⟨h7, h8 | ⟨h8, h9 | ⟨h9, h10 | ⟨h10,
    h11 | ⟨h11, h12 | h12⟩⟩⟩⟩⟩⟩⟩⟩⟩⟩⟩⟩
  · exact absurd hd hd2
  · exact absurd h1 h1n
  all_goals first
    | rw [start_file_format_create_failed check_error_returns e s hd h1 h2]
    | rw [start_file_set_video_mime_failed check_error_returns e s hd h1 h2 h3]
    | rw [start_file_set_video_width_failed check_error_returns e s hd h1 h2 h3 h4]
    | rw [start_file_set_video_height_failed check_error_returns e s hd h1 h2 h3 h4 h5]
    | rw [start_file_packet_create_alloc_failed check_error_returns e s hd h1 h2 h3 h4 h5 h6]
    | rw [start_file_get_buffer_failed check_error_returns e s hd h1 h2 h3 h4 h5 h6 h7]
    | rw [start_file_transform_create_failed check_error_returns e s hd h1 h2 h3 h4 h5 h6 h7
        h8]
    | rw [start_file_check_error_returned check_error_returns e s hd h1 h2 h3 h4 h5 h6 h7 h8
        h9]
    | rw [start_file_set_colorspace_failed check_error_returns e s hd h1 h2 h3 h4 h5 h6 h7 h8
        h9 h10]
    | rw [start_file_set_resolution_failed check_error_returns e s hd h1 h2 h3 h4 h5 h6 h7 h8
        h9 h10 h11]
    | rw [start_file_transform_run_failed check_error_returns e s hd h1 h2 h3 h4 h5 h6 h7 h8
        h9 h10 h11 h12]
    | rw [start_file_all_ok check_error_returns e s hd h1 h2 h3 h4 h5 h6 h7 h8 h9 h10 h11 h12]
  all_goals simp only [new_events, List.drop_left]
  all_goals simp [Event.is_free, Event.is_format_unref, List.filter_cons, List.takeWhile_cons, *]
  all_goals tauto

/-- C5, an instance: the file `a.jpg`, for which every call succeeds. -/
theorem start_file_releases_once_witness :
    (ok_entry "a.jpg").st_isdir = false ∧ (ok_entry "a.jpg").decode_jpeg = 0 ∧
    (new_events initial_state (start_file false (ok_entry "a.jpg") initial_state).1).filter
      Event.is_free = [Event.free 1] ∧
    (new_events initial_state (start_file false (ok_entry "a.jpg") initial_state).1).filter
      Event.is_format_unref = [Event.media_format_unref 2] ∧
    Event.memcpy (some 9000) 1 24 ∈
      (new_events initial_state (start_file false (ok_entry "a.jpg") initial_state).1).takeWhile
        (fun ev => !ev.is_free) ∧
    Event.media_packet_create_alloc 2 (some 3) ∈
      (new_events initial_state (start_file false (ok_entry "a.jpg") initial_state).1).takeWhile
        (fun ev => !ev.is_format_unref) :=
  have h := start_file_releases_once false (ok_entry "a.jpg") initial_state rfl rfl
  ⟨rfl, rfl, h.1, h.2.1, h.2.2 rfl rfl rfl rfl rfl rfl (by decide)⟩

/-- C8 (as amended): the handler does not test the parsed target itself; for every file,
if `image_util_transform_set_resolution` returns a non-success code for the parsed target
width and height (as the SDK may for a zero width or height), the pass for that file ends
in a `return` with an error logged, and neither `image_util_transform_run` nor
`image_util_encode_jpeg` is called for it. -/
theorem start_file_rejected_resolution (check_error_returns : Bool) (e : dirent_env)
    (s : State) (hd : e.st_isdir = false)
    (hres : e.set_resolution (to_unsigned (atoi s.s_info_width))
      (to_unsigned (atoi s.s_info_height)) ≠ 0) :
    (start_file check_error_returns e s).2 = Flow.returned ∧
    (new_events s (start_file check_error_returns e s).1).filter Event.is_transform_run = [] ∧
    (new_events s (start_file check_error_returns e s).1).filter Event.is_encode = [] ∧
    (new_events s (start_file check_error_returns e s).1).any Event.is_error_log = true := by
  have hd2 : ¬ e.st_isdir = true := by simp [hd]
  rcases start_file_path check_error_returns e s with hd | ⟨hd, h1 | ⟨h1, h2 | ⟨h2,
    h3 | ⟨h3, h4 | ⟨h4, h5 | ⟨h5, h6 | ⟨h6, h7 | ⟨h7, h8 | ⟨h8, h9 | ⟨h9, h10 | ⟨h10,
    h11 | ⟨h11, h12 | h12⟩⟩⟩⟩⟩⟩⟩⟩⟩⟩⟩⟩
  · exact absurd hd hd2
  all_goals first
    | exact absurd h11 hres
    | rw [start_file_decode_failed check_error_returns e s hd h1]
    | rw [start_file_format_create_failed check_error_returns e s hd h1 h2]
    | rw [start_file_set_video_mime_failed check_error_returns e s hd h1 h2 h3]
    | rw [start_file_set_video_width_failed check_error_returns e s hd h1 h2 h3 h4]
    | rw [start_file_set_video_height_failed check_error_returns e s hd h1 h2 h3 h4 h5]
    | rw [start_file_packet_create_alloc_failed check_error_returns e s hd h1 h2 h3 h4 h5 h6]
    | rw [start_file_get_buffer_failed check_error_returns e s hd h1 h2 h3 h4 h5 h6 h7]
    | rw [start_file_transform_create_failed check_error_returns e s hd h1 h2 h3 h4 h5 h6 h7
        h8]
    | rw [start_file_check_error_returned check_error_returns e s hd h1 h2 h3 h4 h5 h6 h7 h8
        h9]
    | rw [start_file_set_colorspace_failed check_error_returns e s hd h1 h2 h3 h4 h5 h6 h7 h8
        h9 h10]
    | rw [start_file_set_resolution_failed check_error_returns e s hd h1 h2 h3 h4 h5 h6 h7 h8
        h9 h10 h11]
  all_goals simp only [new_events, List.drop_left]
  all_goals simp [Event.is_transform_run, Event.is_encode, Event.is_error_log,
    List.filter_cons]

/-- C8, an instance: a target width of 0 and an SDK that rejects it. -/
theorem start_file_rejected_resolution_witness :
    (rejects_zero_entry "a.jpg").st_isdir = false ∧
    to_unsigned (atoi zero_width_state.s_info_width) = 0 ∧
    (rejects_zero_entry "a.jpg").set_resolution (to_unsigned (atoi zero_width_state.s_info_width))
      (to_unsigned (atoi zero_width_state.s_info_height)) ≠ 0 ∧
    (start_file false (rejects_zero_entry "a.jpg") zero_width_state).2 = Flow.returned ∧
    (new_events zero_width_state
      (start_file false (rejects_zero_entry "a.jpg") zero_width_state).1).filter
        Event.is_transform_run = [] ∧
    (new_events zero_width_state
      (start_file false (rejects_zero_entry "a.jpg") zero_width_state).1).filter
        Event.is_encode = [] ∧
    (new_events zero_width_state
      (start_file false (rejects_zero_entry "a.jpg") zero_width_state).1).any
        Event.is_error_log = true :=
  ⟨rfl, by decide, by decide,
    start_file_rejected_resolution false (rejects_zero_entry "a.jpg") zero_width_state rfl
      (by decide)⟩

/-- C8, counterexample: with a target width of 0 and an SDK that accepts it, the handler
passes 0 x 480 to `image_util_transform_set_resolution`, logs no error and calls
`image_util_transform_run` for the file. -/
theorem zero_target_reaches_transform_run :
    to_unsigned (atoi zero_width_state.s_info_width) = 0 ∧
    (new_events zero_width_state (_image_util_start_cb false (some [ok_entry "a.jpg"])
      zero_width_state)).filter Event.is_transform_run =
      [Event.image_util_transform_run (some 4) (some 3)
        transform_completed_cb._image_util_completed_cb] ∧
    ((new_events zero_width_state (_image_util_start_cb false (some [ok_entry "a.jpg"])
      zero_width_state)).filter Event.is_pipeline_call).drop 12 =
      [Event.image_util_transform_set_colorspace (some 4) IMAGE_UTIL_COLORSPACE_NV12,
       Event.image_util_transform_set_resolution (some 4) 0 480,
       Event.image_util_transform_run (some 4) (some 3)
        transform_completed_cb._image_util_completed_cb] ∧
    (new_events zero_width_state (_image_util_start_cb false (some [ok_entry "a.jpg"])
      zero_width_state)).any Event.is_error_log = false := by
  refine ⟨?_, ?_, ?_, ?_⟩ <;> with_unfolding_all rfl

/-- C10: in the loop body of `_image_util_start_cb`, for every file that is not a
directory and for which every SDK call succeeds, the calls made on pipeline objects are
exactly, in this order: decode the JPEG as RGB888; create the format; set its mime type to
RGB888; set its width and its height to the decoded ones; create-alloc the packet from
that format; unref the format; get the packet buffer pointer; copy `size_decode` bytes
from the decoded buffer and free it; create the transform handle; set hardware
acceleration to false; set colour space NV12; set the resolution to the target parsed from
the entry fields; run the transform on that handle and packet with
`_image_util_completed_cb`.  The loop then goes on to the next entry. -/
theorem start_file_success_calls (check_error_returns : Bool) (e : dirent_env) (s : State)
    (hd : e.st_isdir = false) (h1 : e.decode_jpeg = 0) (h2 : e.format_create = 0)
    (h3 : e.set_video_mime = 0) (h4 : e.set_video_width = 0) (h5 : e.set_video_height = 0)
    (h6 : e.packet_create_alloc = 0) (h7 : e.get_buffer_data_ptr = 0)
    (h7b : e.packet_buffer ≠ none) (h8 : e.transform_create = 0)
    (h9 : e.set_hardware_acceleration = 0) (h10 : e.set_colorspace = 0)
    (h11 : e.set_resolution (to_unsigned (atoi s.s_info_width))
      (to_unsigned (atoi s.s_info_height)) = 0)
    (h12 : e.transform_run = 0) :
    (start_file check_error_returns e s).2 = Flow.next ∧
    (new_events s (start_file check_error_returns e s).1).filter Event.is_pipeline_call =
      [Event.image_util_decode_jpeg (snprintf BUFLEN (s.resource_path ++ "/" ++ e.d_name))
         IMAGE_UTIL_COLORSPACE_RGB888 (some s.next_id),
       Event.media_format_create (some (s.next_id + 1)),
       Event.media_format_set_video_mime (s.next_id + 1) MEDIA_FORMAT_RGB888,
       Event.media_format_set_video_width (s.next_id + 1) e.width,
       Event.media_format_set_video_height (s.next_id + 1) e.height,
       Event.media_packet_create_alloc (s.next_id + 1) (some (s.next_id + 2)),
       Event.media_format_unref (s.next_id + 1),
       Event.media_packet_get_buffer_data_ptr (some (s.next_id + 2)),
       Event.memcpy e.packet_buffer s.next_id e.size_decode,
       Event.free s.next_id,
       Event.image_util_transform_create (some (s.next_id + 3)),
       Event.image_util_transform_set_hardware_acceleration (some (s.next_id + 3)) false,
       Event.image_util_transform_set_colorspace (some (s.next_id + 3))
         IMAGE_UTIL_COLORSPACE_NV12,
       Event.image_util_transform_set_resolution (some (s.next_id + 3))
         (to_unsigned (atoi s.s_info_width)) (to_unsigned (atoi s.s_info_height)),
       Event.image_util_transform_run (some (s.next_id + 3)) (some (s.next_id + 2))
         transform_completed_cb._image_util_completed_cb] := by
  rw [start_file_all_ok check_error_returns e s hd h1 h2 h3 h4 h5 h6 ⟨h7, h7b⟩ h8 (Or.inr h9)
    h10 h11 h12]
  simp only [new_events, List.drop_left]
  simp [Event.is_pipeline_call, List.filter_cons, h9]

/-- C10, an instance: the file `a.jpg` with a target of 640 x 480. -/
theorem start_file_success_calls_witness :
    (start_file false (ok_entry "a.jpg") initial_state).2 = Flow.next ∧
    (new_events initial_state (start_file false (ok_entry "a.jpg") initial_state).1).filter
        Event.is_pipeline_call =
      [Event.image_util_decode_jpeg "/opt/usr/apps/imageutil/res/a.jpg"
         IMAGE_UTIL_COLORSPACE_RGB888 (some 1),
       Event.media_format_create (some 2),
       Event.media_format_set_video_mime 2 MEDIA_FORMAT_RGB888,
       Event.media_format_set_video_width 2 4,
       Event.media_format_set_video_height 2 2,
       Event.media_packet_create_alloc 2 (some 3),
       Event.media_format_unref 2,
       Event.media_packet_get_buffer_data_ptr (some 3),
       Event.memcpy (some 9000) 1 24,
       Event.free 1,
       Event.image_util_transform_create (some 4),
       Event.image_util_transform_set_hardware_acceleration (some 4) false,
       Event.image_util_transform_set_colorspace (some 4) IMAGE_UTIL_COLORSPACE_NV12,
       Event.image_util_transform_set_resolution (some 4) 640 480,
       Event.image_util_transform_run (some 4) (some 3)
         transform_completed_cb._image_util_completed_cb] :=
  start_file_success_calls false (ok_entry "a.jpg") initial_state rfl rfl rfl rfl rfl rfl rfl
    rfl (by decide) rfl rfl rfl rfl rfl

/-- C4, the code at the failing input: after a successful transform of `a.jpg`, when
`media_packet_get_format`, `media_format_get_video_info`,
`media_packet_get_buffer_data_ptr` or `image_util_encode_jpeg` fails inside the callback,
the callback returns with `transform_finished` still false; on a transform failure and on
full success it returns with `transform_finished` true. -/
theorem completed_cb_inner_failure_leaves_flag :
    one_file_started.transform_finished = false ∧
    (_image_util_completed_cb (some (some 100)) 0 { nv12_env with get_format := -1 }
      one_file_started).map (fun t => t.transform_finished) = some false ∧
    (_image_util_completed_cb (some (some 100)) 0 { nv12_env with get_video_info := -1 }
      one_file_started).map (fun t => t.transform_finished) = some false ∧
    (_image_util_completed_cb (some (some 100)) 0 { nv12_env with get_buffer_data_ptr := -1 }
      one_file_started).map (fun t => t.transform_finished) = some false ∧
    (_image_util_completed_cb (some (some 100)) 0 { nv12_env with encode_jpeg := -1 }
      one_file_started).map (fun t => t.transform_finished) = some false ∧
    (_image_util_completed_cb (some (some 100)) (-1) nv12_env
      one_file_started).map (fun t => t.transform_finished) = some true ∧
    (_image_util_completed_cb (some (some 100)) 0 nv12_env
      one_file_started).map (fun t => t.transform_finished) = some true := by
  refine ⟨?_, ?_, ?_, ?_, ?_, ?_, ?_⟩ <;> with_unfolding_all rfl

/-- C6, the code at the failing input: after the pipeline of the single file `a.jpg` has
completed successfully (handler, completion callback with NV12 output, idle cleanup), the
transform handle and the format references are released but the input packet 3 from
`media_packet_create_alloc` is still live.  On the failure paths: when
`media_packet_get_buffer_data_ptr` fails in the handler the packet 3 stays live, and when
`image_util_transform_set_colorspace` fails the packet 3 and the transform handle 4 stay
live. -/
theorem pipeline_leaves_live_handles :
    (_image_util_completed_cb (some (some 100)) 0 nv12_env one_file_started).map
      (fun t => (live_transform_handles (_btn_enable t).1.trace,
        live_formats (_btn_enable t).1.trace, live_packets (_btn_enable t).1.trace)) =
      some ([], [], [3]) ∧
    live_packets (_image_util_start_cb false
      (some [{ ok_entry "a.jpg" with get_buffer_data_ptr := -1 }]) initial_state).trace = [3] ∧
    live_packets (_image_util_start_cb false
      (some [{ ok_entry "a.jpg" with set_colorspace := -1 }]) initial_state).trace = [3] ∧
    live_transform_handles (_image_util_start_cb false
      (some [{ ok_entry "a.jpg" with set_colorspace := -1 }]) initial_state).trace = [4] := by
  refine ⟨?_, ?_, ?_, ?_⟩ <;> with_unfolding_all rfl

/-- C7, the code at the failing input: when the handler returns from a directory with the
two files `a.jpg` and `b.jpg`, two transform handles (4 and 8) and two packets (3 and 7)
have been created and none has been destroyed, while the variables `handle` and
`media_packet` only point to the second of each. -/
theorem two_files_two_live_handles :
    live_transform_handles two_files_started.trace = [4, 8] ∧
    live_packets two_files_started.trace = [3, 7] ∧
    two_files_started.handle = some 8 ∧
    two_files_started.media_packet = some 7 := by
  refine ⟨?_, ?_, ?_, ?_⟩ <;> with_unfolding_all rfl

/-- C9, the code at the failing input: the handler launches the transforms of `a.jpg` and
`b.jpg` and returns; both completions are then delivered with success and NV12 output.
Both `image_util_encode_jpeg` calls write to the path of `b.jpg`, and no call writes to
the path of `a.jpg`; this is so whether or not the idle cleanup runs between the two
completions. -/
theorem two_files_encode_to_same_path :
    two_files_started.trace.filter Event.is_transform_run =
      [Event.image_util_transform_run (some 4) (some 3)
         transform_completed_cb._image_util_completed_cb,
       Event.image_util_transform_run (some 8) (some 7)
         transform_completed_cb._image_util_completed_cb] ∧
    ((_image_util_completed_cb (some (some 100)) 0 nv12_env two_files_started).bind
      (fun t => _image_util_completed_cb (some (some 101)) 0 nv12_env t)).map
        (fun t => t.trace.filter Event.is_encode) =
      some [Event.image_util_encode_jpeg (some 9100) 640 480 IMAGE_UTIL_COLORSPACE_NV12 100
              "/opt/usr/media/Images/b.jpg",
            Event.image_util_encode_jpeg (some 9100) 640 480 IMAGE_UTIL_COLORSPACE_NV12 100
              "/opt/usr/media/Images/b.jpg"] ∧
    ((_image_util_completed_cb (some (some 100)) 0 nv12_env two_files_started).bind
      (fun t => _image_util_completed_cb (some (some 101)) 0 nv12_env (_btn_enable t).1)).map
        (fun t => t.trace.filter Event.is_encode) =
      some [Event.image_util_encode_jpeg (some 9100) 640 480 IMAGE_UTIL_COLORSPACE_NV12 100
              "/opt/usr/media/Images/b.jpg",
            Event.image_util_encode_jpeg (some 9100) 640 480 IMAGE_UTIL_COLORSPACE_NV12 100
              "/opt/usr/media/Images/b.jpg"] := by
  refine ⟨?_, ?_, ?_⟩ <;> with_unfolding_all rfl

/-- Setting each of four button flags in turn leaves four equal flags. -/
theorem set_four_buttons (l : List Bool) (b : Bool) (h : l.length = BUTTON_COUNT) :
    (((l.set 0 b).set 1 b).set 2 b).set 3 b = List.replicate BUTTON_COUNT b := by
  match l, h with
  | [_, _, _, _], _ => rfl

/-- The idle callback does nothing while the completion flag is not raised. -/
theorem btn_enable_idle (s : State) (h : s.transform_finished = false) :
    _btn_enable s = (s, true) := by
  simp [_btn_enable, h]

/-- The idle callback with the completion flag raised: the state it leaves. -/
theorem btn_enable_cleanup (s : State) (h : s.transform_finished = true)
    (hlen : s.buttons_disabled.length = BUTTON_COUNT) :
    _btn_enable s =
      ({ s with
        handle := none
        packet_h := none
        transform_finished := false
        buttons_disabled := List.replicate BUTTON_COUNT false
        trace := s.trace ++
          [Event.image_util_transform_destroy s.handle,
           Event.media_packet_destroy s.packet_h,
           Event._disable_button 0 false, Event._disable_button 1 false,
           Event._disable_button 2 false, Event._disable_button 3 false] }, true) := by
  have hb := set_four_buttons s.buttons_disabled false hlen
  simp only [BUTTON_COUNT] at hb
  simp [_btn_enable, h, disable_buttons_from, BUTTON_COUNT, _disable_button, hb]

/-- C11: `_btn_enable` always returns `EINA_TRUE`.  While `transform_finished` is false it
leaves the state as it is and makes no call.  When `transform_finished` is true it calls
`image_util_transform_destroy(handle)` and `media_packet_destroy(packet_h)`, sets `handle`
and `packet_h` to `NULL`, calls `_disable_button(i, EINA_FALSE)` for each of the
`BUTTON_COUNT` buttons, which are then all enabled, and clears `transform_finished`.
Running it a second time changes nothing, so over two runs in a row each of the two
objects is destroyed once when the flag was raised and no destroy call is made otherwise. -/
theorem btn_enable_behaviour (s : State) (hlen : s.buttons_disabled.length = BUTTON_COUNT) :
    (_btn_enable s).2 = true ∧
    (_btn_enable s).1 =
      (if s.transform_finished then
        { s with
          handle := none
          packet_h := none
          transform_finished := false
          buttons_disabled := List.replicate BUTTON_COUNT false
          trace := s.trace ++
            [Event.image_util_transform_destroy s.handle,
             Event.media_packet_destroy s.packet_h,
             Event._disable_button 0 false, Event._disable_button 1 false,
             Event._disable_button 2 false, Event._disable_button 3 false] }
      else s) ∧
    (_btn_enable (_btn_enable s).1).1 = (_btn_enable s).1 ∧
    (new_events s (_btn_enable (_btn_enable s).1).1).filter Event.is_destroy =
      (if s.transform_finished then
        [Event.image_util_transform_destroy s.handle, Event.media_packet_destroy s.packet_h]
      else []) := by
  cases hf : s.transform_finished with
  | false =>
    have h1 := btn_enable_idle s hf
    rw [h1]
    simp only [h1, Bool.false_eq_true, if_false, new_events, List.drop_length,
      List.filter_nil, and_self]
  | true =>
    have h1 := btn_enable_cleanup s hf hlen
    rw [h1]
    simp only [if_true, true_and]
    rw [btn_enable_idle _ rfl]
    simp only [new_events, List.drop_left, true_and]
    rfl

/-- C11, an instance: the idle callback after a completed transform. -/
theorem btn_enable_behaviour_witness :
    finished_state.buttons_disabled.length = BUTTON_COUNT ∧
    finished_state.transform_finished = true ∧
    (_btn_enable finished_state).2 = true ∧
    (_btn_enable finished_state).1.handle = none ∧
    (_btn_enable finished_state).1.packet_h = none ∧
    (_btn_enable finished_state).1.transform_finished = false ∧
    (_btn_enable finished_state).1.buttons_disabled = [false, false, false, false] ∧
    (_btn_enable (_btn_enable finished_state).1).1 = (_btn_enable finished_state).1 ∧
    (new_events finished_state (_btn_enable (_btn_enable finished_state).1).1).filter
      Event.is_destroy =
      [Event.image_util_transform_destroy (some 4), Event.media_packet_destroy (some 100)] :=
  have h := btn_enable_behaviour finished_state rfl
  ⟨rfl, rfl, h.1, congrArg State.handle h.2.1, congrArg State.packet_h h.2.1,
    congrArg State.transform_finished h.2.1, congrArg State.buttons_disabled h.2.1,
    h.2.2.1, h.2.2.2⟩

/-- The loop body leaves the button flags and the completion flag unchanged. -/
theorem start_file_frame_ui (check_error_returns : Bool) (e : dirent_env) (s : State) :
    (start_file check_error_returns e s).1.buttons_disabled = s.buttons_disabled ∧
    (start_file check_error_returns e s).1.transform_finished = s.transform_finished := by
  rcases start_file_path check_error_returns e s with hd | ⟨hd, h1 | ⟨h1, h2 | ⟨h2,
    h3 | ⟨h3, h4 | ⟨h4, h5 | ⟨h5, h6 | ⟨h6, h7 | ⟨h7, h8 | ⟨h8, h9 | ⟨h9, h10 | ⟨h10,
    h11 | ⟨h11, h12 | h12⟩⟩⟩⟩⟩⟩⟩⟩⟩⟩⟩⟩
  all_goals first
    | rw [start_file_directory check_error_returns e s hd]
    | rw [start_file_decode_failed check_error_returns e s hd h1]
    | rw [start_file_format_create_failed check_error_returns e s hd h1 h2]
    | rw [start_file_set_video_mime_failed check_error_returns e s hd h1 h2 h3]
    | rw [start_file_set_video_width_failed check_error_returns e s hd h1 h2 h3 h4]
    | rw [start_file_set_video_height_failed check_error_returns e s hd h1 h2 h3 h4 h5]
    | rw [start_file_packet_create_alloc_failed check_error_returns e s hd h1 h2 h3 h4 h5 h6]
    | rw [start_file_get_buffer_failed check_error_returns e s hd h1 h2 h3 h4 h5 h6 h7]
    | rw [start_file_transform_create_failed check_error_returns e s hd h1 h2 h3 h4 h5 h6 h7
        h8]
    | rw [start_file_check_error_returned check_error_returns e s hd h1 h2 h3 h4 h5 h6 h7 h8
        h9]
    | rw [start_file_set_colorspace_failed check_error_returns e s hd h1 h2 h3 h4 h5 h6 h7 h8
        h9 h10]
    | rw [start_file_set_resolution_failed check_error_returns e s hd h1 h2 h3 h4 h5 h6 h7 h8
        h9 h10 h11]
    | rw [start_file_transform_run_failed check_error_returns e s hd h1 h2 h3 h4 h5 h6 h7 h8
        h9 h10 h11 h12]
    | rw [start_file_all_ok check_error_returns e s hd h1 h2 h3 h4 h5 h6 h7 h8 h9 h10 h11 h12]
  all_goals exact ⟨rfl, rfl⟩

/-- The loop leaves the button flags and the completion flag unchanged. -/
theorem start_loop_frame_ui (check_error_returns : Bool) (entries : List dirent_env) :
    ∀ s : State,
    (start_loop check_error_returns entries s).buttons_disabled = s.buttons_disabled ∧
    (start_loop check_error_returns entries s).transform_finished = s.transform_finished := by
  induction entries with
  | nil =>
    intro s
    exact ⟨rfl, rfl⟩
  | cons x rest ih =>
    intro s
    have hf := start_file_frame_ui check_error_returns x s
    simp only [start_loop]
    cases hres : start_file check_error_returns x s with
    | mk s1 flow =>
      rw [hres] at hf
      simp only at hf
      cases flow with
      | returned => exact hf
      | next => exact ⟨(ih s1).1.trans hf.1, (ih s1).2.trans hf.2⟩

/-- Whatever the handler meets, it returns with the four buttons disabled and the
completion flag cleared. -/
theorem start_cb_ui (check_error_returns : Bool) (res : Option (List dirent_env))
    (s : State) (hlen : s.buttons_disabled.length = BUTTON_COUNT) :
    (_image_util_start_cb check_error_returns res s).buttons_disabled =
      List.replicate BUTTON_COUNT true ∧
    (_image_util_start_cb check_error_returns res s).transform_finished = false := by
  have hb := set_four_buttons s.buttons_disabled true hlen
  simp only [BUTTON_COUNT] at hb
  cases res with
  | none =>
    simp [_image_util_start_cb, disable_buttons_from, BUTTON_COUNT, _disable_button, hb]
  | some l =>
    simp only [_image_util_start_cb]
    rw [(start_loop_frame_ui check_error_returns l _).1,
      (start_loop_frame_ui check_error_returns l _).2]
    simp [disable_buttons_from, BUTTON_COUNT, _disable_button, hb]

/-- The loop body makes no `_disable_button` call. -/
theorem start_file_no_button_call (check_error_returns : Bool) (e : dirent_env) (s : State) :
    (new_events s (start_file check_error_returns e s).1).filter Event.is_button_call =
      [] := by
  rcases start_file_path check_error_returns e s with hd | ⟨hd, h1 | ⟨h1, h2 | ⟨h2,
    h3 | ⟨h3, h4 | ⟨h4, h5 | ⟨h5, h6 | ⟨h6, h7 | ⟨h7, h8 | ⟨h8, h9 | ⟨h9, h10 | ⟨h10,
    h11 | ⟨h11, h12 | h12⟩⟩⟩⟩⟩⟩⟩⟩⟩⟩⟩⟩
  all_goals first
    | rw [start_file_directory check_error_returns e s hd]
    | rw [start_file_decode_failed check_error_returns e s hd h1]
    | rw [start_file_format_create_failed check_error_returns e s hd h1 h2]
    | rw [start_file_set_video_mime_failed check_error_returns e s hd h1 h2 h3]
    | rw [start_file_set_video_width_failed check_error_returns e s hd h1 h2 h3 h4]
    | rw [start_file_set_video_height_failed check_error_returns e s hd h1 h2 h3 h4 h5]
    | rw [start_file_packet_create_alloc_failed check_error_returns e s hd h1 h2 h3 h4 h5 h6]
    | rw [start_file_get_buffer_failed check_error_returns e s hd h1 h2 h3 h4 h5 h6 h7]
    | rw [start_file_transform_create_failed check_error_returns e s hd h1 h2 h3 h4 h5 h6 h7
        h8]
    | rw [start_file_check_error_returned check_error_returns e s hd h1 h2 h3 h4 h5 h6 h7 h8
        h9]
    | rw [start_file_set_colorspace_failed check_error_returns e s hd h1 h2 h3 h4 h5 h6 h7 h8
        h9 h10]
    | rw [start_file_set_resolution_failed check_error_returns e s hd h1 h2 h3 h4 h5 h6 h7 h8
        h9 h10 h11]
    | rw [start_file_transform_run_failed check_error_returns e s hd h1 h2 h3 h4 h5 h6 h7 h8
        h9 h10 h11 h12]
    | rw [start_file_all_ok check_error_returns e s hd h1 h2 h3 h4 h5 h6 h7 h8 h9 h10 h11 h12]
  all_goals simp only [new_events, List.drop_left]
  all_goals simp [Event.is_button_call, List.filter_cons]

/-- The loop makes no `_disable_button` call. -/
theorem start_loop_no_button_call (check_error_returns : Bool) (entries : List dirent_env) :
    ∀ s : State,
    (new_events s (start_loop check_error_returns entries s)).filter Event.is_button_call =
      [] := by
  induction entries with
  | nil =>
    intro s
    simp [start_loop, new_events]
  | cons x rest ih =>
    intro s
    have hf := (start_file_frame check_error_returns x s).2.2.2.2
    have hb := start_file_no_button_call check_error_returns x s
    simp only [start_loop]
    cases hres : start_file check_error_returns x s with
    | mk s1 flow =>
      rw [hres] at hf hb
      simp only at hf hb
      cases flow with
      | returned => exact hb
      | next =>
        simp only
        have happ := new_events_append s s1 (start_loop check_error_returns rest s1) hf
          (start_loop_frame check_error_returns rest s1).2.2.1
        rw [happ.2, List.filter_append, hb, ih s1]
        rfl

/-- The only button calls of the handler are the four disabling calls of its prologue. -/
theorem start_cb_button_calls (check_error_returns : Bool) (res : Option (List dirent_env))
    (s : State) :
    (new_events s (_image_util_start_cb check_error_returns res s)).filter
      Event.is_button_call =
      [Event._disable_button 0 true, Event._disable_button 1 true,
       Event._disable_button 2 true, Event._disable_button 3 true] := by
  cases res with
  | none =>
    simp [_image_util_start_cb, disable_buttons_from, BUTTON_COUNT, _disable_button,
      new_events, Event.is_button_call, List.filter_cons]
  | some l =>
    obtain ⟨s0, _, _, htr, _, hcb⟩ := start_cb_some check_error_returns s
    have hpro : (new_events s s0).filter Event.is_button_call =
        [Event._disable_button 0 true, Event._disable_button 1 true,
         Event._disable_button 2 true, Event._disable_button 3 true] := by
      have h0 := hcb []
      simp only [start_loop] at h0
      rw [← h0]
      simp [_image_util_start_cb, start_loop, disable_buttons_from, BUTTON_COUNT,
        _disable_button, new_events, Event.is_button_call, List.filter_cons]
    rw [hcb]
    have happ := new_events_append s s0 (start_loop check_error_returns l s0) htr
      (start_loop_frame check_error_returns l s0).2.2.1
    rw [happ.2, List.filter_append, hpro, start_loop_no_button_call check_error_returns l s0]
    rfl

/-- A pass that ends in an early error return adds no `image_util_transform_run` call. -/
theorem start_file_failure_no_run (check_error_returns : Bool) (e : dirent_env) (s : State)
    (hd : e.st_isdir = false)
    (hfail : e.decode_jpeg ≠ 0 ∨ e.format_create ≠ 0 ∨ e.set_video_mime ≠ 0 ∨
      e.set_video_width ≠ 0 ∨ e.set_video_height ≠ 0 ∨ e.packet_create_alloc ≠ 0 ∨
      e.get_buffer_data_ptr ≠ 0 ∨ e.packet_buffer = none ∨ e.transform_create ≠ 0 ∨
      (check_error_returns = true ∧ e.set_hardware_acceleration ≠ 0) ∨
      e.set_colorspace ≠ 0 ∨
      e.set_resolution (to_unsigned (atoi s.s_info_width))
        (to_unsigned (atoi s.s_info_height)) ≠ 0) :
    (start_file check_error_returns e s).2 = Flow.returned ∧
    (new_events s (start_file check_error_returns e s).1).filter Event.is_transform_run =
      [] := by
  have hd2 : ¬ e.st_isdir = true := by simp [hd]
  rcases start_file_path check_error_returns e s with hd | ⟨hd, h1 | ⟨h1, h2 | ⟨h2,
    h3 | ⟨h3, h4 | ⟨h4, h5 | ⟨h5, h6 | ⟨h6, h7 | ⟨h7, h8 | ⟨h8, h9 | ⟨h9, h10 | ⟨h10,
    h11 | ⟨h11, h12 | h12⟩⟩⟩⟩⟩⟩⟩⟩⟩⟩⟩⟩
  · exact absurd hd hd2
  all_goals first
    | rw [start_file_decode_failed check_error_returns e s hd h1]
    | rw [start_file_format_create_failed check_error_returns e s hd h1 h2]
    | rw [start_file_set_video_mime_failed check_error_returns e s hd h1 h2 h3]
    | rw [start_file_set_video_width_failed check_error_returns e s hd h1 h2 h3 h4]
    | rw [start_file_set_video_height_failed check_error_returns e s hd h1 h2 h3 h4 h5]
    | rw [start_file_packet_create_alloc_failed check_error_returns e s hd h1 h2 h3 h4 h5 h6]
    | rw [start_file_get_buffer_failed check_error_returns e s hd h1 h2 h3 h4 h5 h6 h7]
    | rw [start_file_transform_create_failed check_error_returns e s hd h1 h2 h3 h4 h5 h6 h7
        h8]
    | rw [start_file_check_error_returned check_error_returns e s hd h1 h2 h3 h4 h5 h6 h7 h8
        h9]
    | rw [start_file_set_colorspace_failed check_error_returns e s hd h1 h2 h3 h4 h5 h6 h7 h8
        h9 h10]
    | rw [start_file_set_resolution_failed check_error_returns e s hd h1 h2 h3 h4 h5 h6 h7 h8
        h9 h10 h11]
    | (exfalso
       rcases hfail with h | h | h | h | h | h | h | h | h | h | h | h
       · exact h h1
       · exact h h2
       · exact h h3
       · exact h h4
       · exact h h5
       · exact h h6
       · exact h h7.1
       · exact h7.2 h
       · exact h h8
       · rcases h9 with hc | hc
         · rw [hc] at h
           exact Bool.false_ne_true h.1
         · exact h.2 hc
       · exact h h10
       · exact h h11)
  all_goals simp only [new_events, List.drop_left]
  all_goals simp [Event.is_transform_run, List.filter_cons]

/-- The loop passes over leading directory entries, only recording their `lstat`. -/
theorem start_loop_skip_directories (check_error_returns : Bool) (l : List dirent_env)
    (dirs : List dirent_env) :
    ∀ s : State, (∀ d ∈ dirs, d.st_isdir = true) →
    ∃ s1 : State, start_loop check_error_returns (dirs ++ l) s =
        start_loop check_error_returns l s1 ∧
      s1.s_info_width = s.s_info_width ∧ s1.s_info_height = s.s_info_height ∧
      s1.trace = s.trace ++ new_events s s1 ∧
      (new_events s s1).filter Event.is_transform_run = [] := by
  induction dirs with
  | nil =>
    intro s _
    exact ⟨s, rfl, rfl, rfl, by simp [new_events], by simp [new_events]⟩
  | cons d rest ih =>
    intro s hdirs
    have hd : d.st_isdir = true := hdirs d (List.mem_cons_self d rest)
    have hstep := start_file_directory check_error_returns d s hd
    obtain ⟨s1, h1, hw, hh, htr, hrun⟩ :=
      ih { s with trace := s.trace ++ [Event.lstat d.d_name] }
        (fun x hx => hdirs x (List.mem_cons_of_mem d hx))
    refine ⟨s1, ?_, hw, hh, ?_, ?_⟩
    · simp only [List.cons_append, start_loop, hstep]
      exact h1
    · have happ := new_events_append s { s with trace := s.trace ++ [Event.lstat d.d_name] }
        s1 (by simp [new_events]) htr
      exact happ.1
    · have happ := new_events_append s { s with trace := s.trace ++ [Event.lstat d.d_name] }
        s1 (by simp [new_events]) htr
      rw [happ.2, List.filter_append, hrun]
      simp [new_events, Event.is_transform_run]

/-- C12: when `_image_util_start_cb` returns through an early error return before any
transform is launched (`opendir` gives `NULL`, or, after leading directory entries, the
first file meets a failing decode, format, packet or transform set-up call), it has made
no `image_util_transform_run` call, its only button calls are `_disable_button(i,
EINA_TRUE)` for each button, all `BUTTON_COUNT` buttons are disabled and
`transform_finished` is false on return; any number of following runs of `_btn_enable`
leaves that state as it is (no call is made), so the buttons stay disabled. -/
theorem start_cb_early_return_buttons_stay_disabled (check_error_returns : Bool)
    (res : Option (List dirent_env)) (dirs rest : List dirent_env) (e : dirent_env)
    (s : State) (n : Nat) (hlen : s.buttons_disabled.length = BUTTON_COUNT)
    (hearly : res = none ∨ (res = some (dirs ++ e :: rest) ∧
      (∀ d ∈ dirs, d.st_isdir = true) ∧ e.st_isdir = false ∧
      (e.decode_jpeg ≠ 0 ∨ e.format_create ≠ 0 ∨ e.set_video_mime ≠ 0 ∨
        e.set_video_width ≠ 0 ∨ e.set_video_height ≠ 0 ∨ e.packet_create_alloc ≠ 0 ∨
        e.get_buffer_data_ptr ≠ 0 ∨ e.packet_buffer = none ∨ e.transform_create ≠ 0 ∨
        (check_error_returns = true ∧ e.set_hardware_acceleration ≠ 0) ∨
        e.set_colorspace ≠ 0 ∨
        e.set_resolution (to_unsigned (atoi s.s_info_width))
          (to_unsigned (atoi s.s_info_height)) ≠ 0))) :
    (new_events s (_image_util_start_cb check_error_returns res s)).filter
      Event.is_transform_run = [] ∧
    (new_events s (_image_util_start_cb check_error_returns res s)).filter
      Event.is_button_call =
      [Event._disable_button 0 true, Event._disable_button 1 true,
       Event._disable_button 2 true, Event._disable_button 3 true] ∧
    (_image_util_start_cb check_error_returns res s).buttons_disabled =
      List.replicate BUTTON_COUNT true ∧
    (_image_util_start_cb check_error_returns res s).transform_finished = false ∧
    (fun t => (_btn_enable t).1)^[n] (_image_util_start_cb check_error_returns res s) =
      _image_util_start_cb check_error_returns res s ∧
    ((fun t => (_btn_enable t).1)^[n]
      (_image_util_start_cb check_error_returns res s)).buttons_disabled =
      List.replicate BUTTON_COUNT true := by
  have hui := start_cb_ui check_error_returns res s hlen
  have hfix : (fun t => (_btn_enable t).1)^[n]
      (_image_util_start_cb check_error_returns res s) =
      _image_util_start_cb check_error_returns res s := by
    apply Function.iterate_fixed
    simp only [btn_enable_idle _ hui.2]
  refine ⟨?_, start_cb_button_calls check_error_returns res s, hui.1, hui.2, hfix, ?_⟩
  · rcases hearly with hnone | ⟨hsome, hdirs, hd, hfail⟩
    · subst hnone
      simp [_image_util_start_cb, disable_buttons_from, BUTTON_COUNT, _disable_button,
        new_events, Event.is_transform_run]
    · subst hsome
      obtain ⟨s0, hw, hh, htr, _, hcb⟩ := start_cb_some check_error_returns s
      have hpro : (new_events s s0).filter Event.is_transform_run = [] := by
        have h0 := hcb []
        simp only [start_loop] at h0
        rw [← h0]
        simp [_image_util_start_cb, start_loop, disable_buttons_from, BUTTON_COUNT,
          _disable_button, new_events, Event.is_transform_run]
      obtain ⟨s1, hl, hw1, hh1, htr1, hrun1⟩ :=
        start_loop_skip_directories check_error_returns (e :: rest) dirs s0 hdirs
      have hfile := start_file_failure_no_run check_error_returns e s1 hd
        (by rw [hw1, hh1, hw, hh]; exact hfail)
      have hframe := (start_file_frame check_error_returns e s1).2.2.2.2
      have hlast : start_loop check_error_returns (e :: rest) s1 =
          (start_file check_error_returns e s1).1 := by
        simp only [start_loop]
        cases hres : start_file check_error_returns e s1 with
        | mk s2 flow =>
          have h2 := hfile.1
          rw [hres] at h2
          simp only at h2
          subst h2
          rfl
      rw [hcb, hl, hlast]
      have h01 := new_events_append s s0 s1 htr htr1
      have h02 := new_events_append s s1 (start_file check_error_returns e s1).1 h01.1 hframe
      rw [h02.2, h01.2, List.filter_append, List.filter_append, hpro, hrun1, hfile.2]
      rfl
  · rw [hfix]
    exact hui.1

/-- C12, an instance: after the entries `.` and `..` the first file `a.jpg` fails to
decode; three runs of the idle callback later the buttons are still disabled. -/
theorem start_cb_early_return_buttons_stay_disabled_witness :
    initial_state.buttons_disabled.length = BUTTON_COUNT ∧
    (decode_fails_entry "a.jpg").decode_jpeg ≠ 0 ∧
    (new_events initial_state (_image_util_start_cb false
      (some ([directory_entry ".", directory_entry ".."] ++
        decode_fails_entry "a.jpg" :: [ok_entry "b.jpg"])) initial_state)).filter
      Event.is_transform_run = [] ∧
    (new_events initial_state (_image_util_start_cb false
      (some ([directory_entry ".", directory_entry ".."] ++
        decode_fails_entry "a.jpg" :: [ok_entry "b.jpg"])) initial_state)).filter
      Event.is_button_call =
      [Event._disable_button 0 true, Event._disable_button 1 true,
       Event._disable_button 2 true, Event._disable_button 3 true] ∧
    (_image_util_start_cb false
      (some ([directory_entry ".", directory_entry ".."] ++
        decode_fails_entry "a.jpg" :: [ok_entry "b.jpg"])) initial_state).buttons_disabled =
      List.replicate BUTTON_COUNT true ∧
    (_image_util_start_cb false
      (some ([directory_entry ".", directory_entry ".."] ++
        decode_fails_entry "a.jpg" :: [ok_entry "b.jpg"])) initial_state).transform_finished =
      false ∧
    (fun t => (_btn_enable t).1)^[3] (_image_util_start_cb false
      (some ([directory_entry ".", directory_entry ".."] ++
        decode_fails_entry "a.jpg" :: [ok_entry "b.jpg"])) initial_state) =
      _image_util_start_cb false
        (some ([directory_entry ".", directory_entry ".."] ++
          decode_fails_entry "a.jpg" :: [ok_entry "b.jpg"])) initial_state ∧
    ((fun t => (_btn_enable t).1)^[3] (_image_util_start_cb false
      (some ([directory_entry ".", directory_entry ".."] ++
        decode_fails_entry "a.jpg" :: [ok_entry "b.jpg"])) initial_state)).buttons_disabled =
      List.replicate BUTTON_COUNT true :=
  ⟨rfl, by decide,
    start_cb_early_return_buttons_stay_disabled false
      (some ([directory_entry ".", directory_entry ".."] ++
        decode_fails_entry "a.jpg" :: [ok_entry "b.jpg"]))
      [directory_entry ".", directory_entry ".."] [ok_entry "b.jpg"]
      (decode_fails_entry "a.jpg") initial_state 3 rfl
      (Or.inr ⟨rfl, by decide, rfl, Or.inl (by decide)⟩)⟩

end ImageUtil
